import Mathlib

/-!
Verification of the tCamMiniAnalog firmware core against its specification.

This file shallowly embeds the code of the repository:
  * `src/firmware/components/video/render.c` — the render/transform pipeline
    (dynamic-range scaling, palette inversion, 2x doubling, interpolated 2x
    doubling),
  * `src/firmware/main/lep_task.c` — the Lepton acquisition state machine,
  * `src/firmware/main/video_task.c` — the display handoff and the
    parameter-session state machine,
  * `src/firmware/main/ctrl_task.c` — the control/fault manager, LED blink
    state machine and button debouncer,
  * `src/firmware/components/sys/ps_utilities.c` — the persisted-settings
    store (its in-memory value cache),
and proves the specification's claims about them.

Conventions:
  * Machine integers are modelled as `Nat` (with explicit `% 256` where the C
    code truncates to `uint8_t`) or as `Int` where the C code uses signed
    `int` arithmetic whose wrap/negative behaviour matters.
  * A `uint8_t` image buffer of width `2*W` is modelled two-dimensionally as
    `Img := Nat → Nat → Nat` (row → column → pixel); a C pointer `img` into
    the flat buffer corresponds to the pair (row, col) with
    flat = row * (2*W) + col.  Every pointer increment in the embedded loops
    is translated with this convention, and each translation is noted where a
    pointer step crosses a row boundary.
  * `LEP_WIDTH`/`LEP_HEIGHT` come from a Lepton interface header that is not
    part of this repository's sources; all render theorems are therefore
    parameterised over the source frame dimensions `W` (width) and `H`
    (height).
-/

namespace TCam

/-- Low byte of a value, as in the C casts `(uint8_t)(v & 0xFF)`. -/
def u8 (n : Nat) : Nat := n % 256

/-- Interpolation scale factor for the dual-source (edge) case
(`#define SF_DS 3` in render.h). -/
def SF_DS : Nat := 3

/-- Interpolation scale factor for the quad-source (inner) case
(`#define SF_QS 5` in render.h). -/
def SF_QS : Nat := 5

/-- Divisor for the dual-source case (`#define DIV_DS (SF_DS + 1)`). -/
def DIV_DS : Nat := SF_DS + 1

/-- Divisor for the quad-source case (`#define DIV_QS (SF_QS + 3)`). -/
def DIV_QS : Nat := SF_QS + 3

/-- A rendered 8-bit greyscale image, row → column → pixel value. -/
abbrev Img := Nat → Nat → Nat

/-- Write one pixel of an image (a single `*img = v` store). -/
def pset (img : Img) (r c v : Nat) : Img :=
  fun r' c' => if r' = r ∧ c' = c then v else img r' c'

theorem pset_same (img : Img) (r c v : Nat) : pset img r c v r c = v := by
  simp [pset]

theorem pset_other (img : Img) (r c v r' c' : Nat) (h : r' ≠ r ∨ c' ≠ c) :
    pset img r c v r' c' = img r' c' := by
  have : ¬ (r' = r ∧ c' = c) := by
    rintro ⟨h1, h2⟩
    rcases h with h | h <;> exact h (by assumption)
  simp [pset, this]

/-- The shared raw-frame buffer structure `lep_buffer_t` (sys_utilities.h),
restricted to the fields the render pipeline reads.  The 16-bit sample grid
`lep_bufferP` is modelled as a function row → column → sample. -/
structure lep_buffer_t where
  lep_min_val : Nat
  lep_max_val : Nat
  lep_bufferP : Nat → Nat → Nat

/-- The render-options structure `gui_state_t` (render.h). -/
structure gui_state_t where
  agc_enabled : Bool
  black_hot_palette : Bool
  display_interp_enable : Bool
  is_radiometric : Bool
  min_max_enable : Bool
  spotmeter_enable : Bool
  temp_unit_C : Bool
  rad_high_res : Bool
deriving DecidableEq

/-- Per-sample radiometric dynamic-range scaling, extracted from the bodies of
`render_double_rad_data` (render.c lines 194–208) and `render_interp_rad_data`
(render.c lines 247–260): `diff = max - min` floored to 1; a sample below
`min` clips to 0; otherwise `(v - min) * 255 / diff` clamped to 255. -/
def rad_scale (min_val max_val v : Nat) : Nat :=
  let diff := if max_val - min_val = 0 then 1 else max_val - min_val
  if v < min_val then 0
  else if (v - min_val) * 255 / diff > 255 then 255
  else (v - min_val) * 255 / diff

/-! ### The nearest-neighbour 2x doubler (render_double_rad_data /
render_double_agc_data)

Both C functions run the same loop shape: for each source row `y`, the inner
`while` writes each (scaled, palette-XORed) sample twice into destination row
`2*y`, then `memcpy` duplicates that row into row `2*y+1`.  The loops are
embedded generically over the per-sample function `f` (source row → source
column → already-XORed output byte); the two renderers instantiate `f`. -/

/-- `memcpy(img + (2y+1)*2W, img + 2y*2W, 2W)`: copy `n` leading columns of
row `rs` over row `rd`.  The regions are disjoint (`rd ≠ rs`), so a one-shot
functional copy models the C `memcpy`. -/
def memcpy_row (n : Nat) (img : Img) (rd rs : Nat) : Img :=
  fun r' c' => if r' = rd ∧ c' < n then img rs c' else img r' c'

/-- The inner `while` of the doubling renderers: `cnt` iterations remain,
`x` is the current source column; iteration `x` writes `f x` at columns
`2*x` and `2*x+1` of destination row `r`. -/
def double_row_loop (f : Nat → Nat) (r : Nat) : Nat → Nat → Img → Img
  | 0, _, img => img
  | cnt+1, x, img =>
      let img := pset img r (2*x) (f x)
      let img := pset img r (2*x+1) (f x)
      double_row_loop f r cnt (x+1) img

/-- The outer `for (src_y=0; ...)` loop of the doubling renderers: iteration
`y` fills destination row `2*y` from source row `y` (width `W`), then
duplicates it into row `2*y+1`. -/
def double_y_loop (W : Nat) (f : Nat → Nat → Nat) : Nat → Nat → Img → Img
  | 0, _, img => img
  | cnt+1, y, img =>
      let img := double_row_loop (f y) (2*y) W 0 img
      let img := memcpy_row (2*W) img (2*y+1) (2*y)
      double_y_loop W f cnt (y+1) img

/-- `render_double_rad_data` (render.c lines 184–218): dynamic-range scale
each sample, XOR with the palette modifier `pm`, double 2x2. -/
def render_double_rad_data (W H pm : Nat) (lep : lep_buffer_t) (img : Img) : Img :=
  double_y_loop W
    (fun y x => rad_scale lep.lep_min_val lep.lep_max_val (lep.lep_bufferP y x) ^^^ pm)
    H 0 img

/-- `render_double_agc_data` (render.c lines 221–237): take the low byte of
each sample, XOR with the palette modifier `pm`, double 2x2. -/
def render_double_agc_data (W H pm : Nat) (lep : lep_buffer_t) (img : Img) : Img :=
  double_y_loop W (fun y x => u8 (lep.lep_bufferP y x) ^^^ pm) H 0 img

/-! ### The interpolated 2x doubler (render_interp_agc_data and helpers) -/

/-- `interp_set_pixel` (render.c lines 387–390): store the low byte of `src`,
XORed with the palette modifier, at `img + y*2*LEP_WIDTH + x` = (row `y`,
column `x`). -/
def interp_set_pixel (pm : Nat) (src : Nat) (img : Img) (x y : Nat) : Img :=
  pset img y x (u8 src ^^^ pm)

/-- Loop body of `interp_set_outer_row` (render.c lines 416–428): `cnt`
iterations remain, `x` the current source column of source row values `s`;
each iteration reads `A = s x`, `B = s (x+1)` (the C code carries `B` across
iterations via `A = B; B = *++src`, which reads the same values from the
unmodified source row) and writes the two blended sub-pixels at columns
`2*x+1` and `2*x+2` of destination row `r` (the C destination pointer starts
one pixel in and advances by 2 per iteration, never leaving row `r`). -/
def interp_row_loop (pm : Nat) (s : Nat → Nat) (r : Nat) : Nat → Nat → Img → Img
  | 0, _, img => img
  | cnt+1, x, img =>
      let A := u8 (s x)
      let B := u8 (s (x+1))
      let img := pset img r (2*x+1) ((SF_DS*A + B) / DIV_DS ^^^ pm)
      let img := pset img r (2*x+2) ((A + SF_DS*B) / DIV_DS ^^^ pm)
      interp_row_loop pm s r cnt (x+1) img

/-- `interp_set_outer_row` (render.c lines 400–429): the top (`first_row`)
variant blends source row 0 into destination row 0; the bottom variant starts
at `src + (LEP_HEIGHT-1)*LEP_WIDTH` (source row `H-1`) and
`img + (2*LEP_HEIGHT-1)*LEP_WIDTH*2 + 1` (destination row `2*H-1`, column 1);
both run `LEP_WIDTH-1` iterations. -/
def interp_set_outer_row (W H pm : Nat) (src : Nat → Nat → Nat)
    (img : Img) (first_row : Bool) : Img :=
  if first_row then interp_row_loop pm (src 0) 0 (W-1) 0 img
  else interp_row_loop pm (src (H-1)) (2*H-1) (W-1) 0 img

/-- Loop body of `interp_set_outer_col` (render.c lines 454–470): `cnt`
iterations remain, `y` the current source row of source column values `t`;
each iteration reads `A = t y`, `B = t (y+1)` and writes the two blended
sub-pixels at rows `2*y+1` and `2*y+2` of destination column `c` (the C
destination pointer advances by `2*LEP_WIDTH` = one row per write, staying in
column `c`). -/
def interp_col_loop (pm : Nat) (t : Nat → Nat) (c : Nat) : Nat → Nat → Img → Img
  | 0, _, img => img
  | cnt+1, y, img =>
      let A := u8 (t y)
      let B := u8 (t (y+1))
      let img := pset img (2*y+1) c ((SF_DS*A + B) / DIV_DS ^^^ pm)
      let img := pset img (2*y+2) c ((A + SF_DS*B) / DIV_DS ^^^ pm)
      interp_col_loop pm t c cnt (y+1) img

/-- `interp_set_outer_col` (render.c lines 439–471): the left (`first_col`)
variant blends source column 0 into destination column 0 starting at
`img + 2*LEP_WIDTH` (row 1, column 0); the right variant starts at
`src + LEP_WIDTH - 1` (source column `W-1`) and
`img + 2*LEP_WIDTH + (2*LEP_WIDTH-1)` (row 1, column `2*W-1`); both run
`LEP_HEIGHT-1` iterations. -/
def interp_set_outer_col (W H pm : Nat) (src : Nat → Nat → Nat)
    (img : Img) (first_col : Bool) : Img :=
  if first_col then interp_col_loop pm (fun y => src y 0) 0 (H-1) 0 img
  else interp_col_loop pm (fun y => src y (W-1)) (2*W-1) (H-1) 0 img

/-- Inner `for (x=...)` loop of `interp_set_inner` (render.c lines 490–517):
`cnt` iterations remain, `x` the current source column against source rows
`y` and `y+1`.  Each iteration reads the quad `A = src[y][x]`,
`B = src[y][x+1]`, `C = src[y+1][x]`, `D = src[y+1][x+1]` (the C code carries
`B`/`D` via `A = B; C = D; src++; B = *src; D = *(src + LEP_WIDTH)`) and
writes the four blended sub-pixels at rows `2*y+1`/`2*y+2`, columns
`2*x+1`/`2*x+2`, in the C store order Ad, Cb, Bc, Da. -/
def interp_inner_x (pm : Nat) (src : Nat → Nat → Nat) (y : Nat) :
    Nat → Nat → Img → Img
  | 0, _, img => img
  | cnt+1, x, img =>
      let A := u8 (src y x)
      let B := u8 (src y (x+1))
      let C := u8 (src (y+1) x)
      let D := u8 (src (y+1) (x+1))
      let img := pset img (2*y+1) (2*x+1) ((SF_QS*A + B + C + D) / DIV_QS ^^^ pm)
      let img := pset img (2*y+2) (2*x+1) ((A + B + SF_QS*C + D) / DIV_QS ^^^ pm)
      let img := pset img (2*y+1) (2*x+2) ((A + SF_QS*B + C + D) / DIV_QS ^^^ pm)
      let img := pset img (2*y+2) (2*x+2) ((A + B + C + SF_QS*D) / DIV_QS ^^^ pm)
      interp_inner_x pm src y cnt (x+1) img

/-- Outer `for (y=...)` loop of `interp_set_inner` (render.c lines 489–522):
after each inner row (which leaves the destination pointer at column `2*W-1`
of row `2*y+1`), the C code advances the destination pointer by
`2*LEP_WIDTH + 2`, i.e. to (row `2*y+3`, column 1) — the start of the next
inner row pair — and the source pointer by one (to the start of source row
`y+1`). -/
def interp_inner_y (pm : Nat) (src : Nat → Nat → Nat) (W : Nat) :
    Nat → Nat → Img → Img
  | 0, _, img => img
  | cnt+1, y, img =>
      interp_inner_y pm src W cnt (y+1) (interp_inner_x pm src y (W-1) 0 img)

/-- `interp_set_inner` (render.c lines 480–523): destination pointer starts at
`img + 2*LEP_WIDTH + 1` (row 1, column 1); `LEP_HEIGHT-1` row iterations of
`LEP_WIDTH-1` column iterations. -/
def interp_set_inner (W H pm : Nat) (src : Nat → Nat → Nat) (img : Img) : Img :=
  interp_inner_y pm src W (H-1) 0 img

/-- `render_interp_agc_data` (render.c lines 268–286): four corner pixels, the
two outer rows, the two outer columns, then the inner pixels. -/
def render_interp_agc_data (W H pm : Nat) (src : Nat → Nat → Nat) (img : Img) : Img :=
  let img := interp_set_pixel pm (src 0 0) img 0 0
  let img := interp_set_pixel pm (src 0 (W-1)) img (2*W-1) 0
  let img := interp_set_pixel pm (src (H-1) 0) img 0 (2*H-1)
  let img := interp_set_pixel pm (src (H-1) (W-1)) img (2*W-1) (2*H-1)
  let img := interp_set_outer_row W H pm src img true
  let img := interp_set_outer_row W H pm src img false
  let img := interp_set_outer_col W H pm src img true
  let img := interp_set_outer_col W H pm src img false
  interp_set_inner W H pm src img

/-- `render_interp_rad_data` (render.c lines 240–265): linearise the whole
frame in place with the same min/max scaling (the `do { ... } while` loop
rewrites every cell before `render_interp_agc_data` reads any of them, so the
in-place pass is modelled by composing the scaling into the source reads),
then run the interpolated doubler on the 8-bit data. -/
def render_interp_rad_data (W H pm : Nat) (lep : lep_buffer_t) (img : Img) : Img :=
  render_interp_agc_data W H pm
    (fun y x => rad_scale lep.lep_min_val lep.lep_max_val (lep.lep_bufferP y x)) img

/-- `render_lep_data` (render.c lines 67–85): set the palette modifier from
the black-hot option (0xFF or 0x00), then dispatch on
{interpolation enabled} × {AGC enabled}. -/
def render_lep_data (W H : Nat) (lep : lep_buffer_t) (img : Img)
    (g : gui_state_t) : Img :=
  let pm := if g.black_hot_palette then 0xFF else 0x00
  if g.display_interp_enable then
    if g.agc_enabled then render_interp_agc_data W H pm lep.lep_bufferP img
    else render_interp_rad_data W H pm lep img
  else
    if g.agc_enabled then render_double_agc_data W H pm lep img
    else render_double_rad_data W H pm lep img

/-! ### Loop characterisations for the doubling renderers -/

theorem double_row_loop_frame (f : Nat → Nat) (r : Nat) :
    ∀ cnt x img r' c', (r' ≠ r ∨ c' < 2*x ∨ 2*x + 2*cnt ≤ c') →
      double_row_loop f r cnt x img r' c' = img r' c' := by
  intro cnt
  induction cnt with
  | zero => intro x img r' c' _; rfl
  | succ n ih =>
      intro x img r' c' h
      show double_row_loop f r n (x+1) _ r' c' = _
      rw [ih (x+1) _ r' c' (by omega)]
      rw [pset_other _ _ _ _ _ _ (by omega), pset_other _ _ _ _ _ _ (by omega)]

theorem double_row_loop_val (f : Nat → Nat) (r : Nat) :
    ∀ cnt x img k, k < cnt →
      double_row_loop f r cnt x img r (2*(x+k)) = f (x+k) ∧
      double_row_loop f r cnt x img r (2*(x+k)+1) = f (x+k) := by
  intro cnt
  induction cnt with
  | zero => intro x img k hk; omega
  | succ n ih =>
      intro x img k hk
      show double_row_loop f r n (x+1) _ r _ = _ ∧ double_row_loop f r n (x+1) _ r _ = _
      rcases Nat.eq_zero_or_pos k with hk0 | hkpos
      · subst hk0
        rw [double_row_loop_frame f r n (x+1) _ r _ (by omega),
            double_row_loop_frame f r n (x+1) _ r _ (by omega)]
        simp only [Nat.add_zero]
        constructor
        · rw [pset_other _ _ _ _ _ _ (by omega), pset_same]
        · rw [pset_same]
      · obtain ⟨k', rfl⟩ : ∃ k', k = k' + 1 := ⟨k - 1, by omega⟩
        have h2 := ih (x+1) (pset (pset img r (2*x) (f x)) r (2*x+1) (f x)) k' (by omega)
        constructor
        · have := h2.1
          rw [show 2*(x+(k'+1)) = 2*((x+1)+k') by omega, this, show x+(k'+1) = (x+1)+k' by omega]
        · have := h2.2
          rw [show 2*(x+(k'+1))+1 = 2*((x+1)+k')+1 by omega, this, show x+(k'+1) = (x+1)+k' by omega]

theorem memcpy_row_dst (n : Nat) (img : Img) (rd rs c : Nat) (h : c < n) :
    memcpy_row n img rd rs rd c = img rs c := by
  simp [memcpy_row, h]

theorem memcpy_row_other (n : Nat) (img : Img) (rd rs r' c' : Nat) (h : r' ≠ rd) :
    memcpy_row n img rd rs r' c' = img r' c' := by
  simp [memcpy_row, h]

theorem double_y_loop_frame (W : Nat) (f : Nat → Nat → Nat) :
    ∀ cnt y0 img r' c', r' < 2*y0 →
      double_y_loop W f cnt y0 img r' c' = img r' c' := by
  intro cnt
  induction cnt with
  | zero => intro y0 img r' c' _; rfl
  | succ n ih =>
      intro y0 img r' c' h
      show double_y_loop W f n (y0+1) _ r' c' = _
      rw [ih (y0+1) _ r' c' (by omega)]
      rw [memcpy_row_other _ _ _ _ _ _ (by omega)]
      rw [double_row_loop_frame _ _ _ _ _ _ _ (by omega)]

/-- Full characterisation of the 2x doubling loop: every destination pixel in
range equals the per-sample value of its owning source pixel. -/
theorem double_y_loop_out (W : Nat) (f : Nat → Nat → Nat) :
    ∀ cnt y0 img r c, 2*y0 ≤ r → r < 2*(y0+cnt) → c < 2*W →
      double_y_loop W f cnt y0 img r c = f (r/2) (c/2) := by
  intro cnt
  induction cnt with
  | zero => intro y0 img r c h1 h2 _; omega
  | succ n ih =>
      intro y0 img r c h1 h2 hc
      show double_y_loop W f n (y0+1) _ r c = _
      rcases Nat.lt_or_ge r (2*(y0+1)) with hr | hr
      · -- rows 2*y0 and 2*y0+1, written by this iteration
        rw [double_y_loop_frame W f n (y0+1) _ r c (by omega)]
        have hrow : ∀ c', c' < 2*W →
            double_row_loop (f y0) (2*y0) W 0 img (2*y0) c' = f y0 (c'/2) := by
          intro c' hc'
          rcases Nat.even_or_odd c' with ⟨m, hm⟩ | ⟨m, hm⟩
          · have := (double_row_loop_val (f y0) (2*y0) W 0 img m (by omega)).1
            simp only [Nat.zero_add] at this
            rw [hm, show m + m = 2*m by omega, this]
            congr 1; omega
          · have := (double_row_loop_val (f y0) (2*y0) W 0 img m (by omega)).2
            simp only [Nat.zero_add] at this
            rw [hm, show 2*m+1 = 2*m+1 by omega, this]
            congr 1; omega
        rcases Nat.lt_or_ge r (2*y0+1) with hr1 | hr1
        · have hreq : r = 2*y0 := by omega
          subst hreq
          rw [memcpy_row_other _ _ _ _ _ _ (by omega), hrow c hc]
          congr 1; omega
        · have hreq : r = 2*y0+1 := by omega
          subst hreq
          rw [memcpy_row_dst _ _ _ _ _ hc, hrow c hc]
          congr 1; omega
      · exact ih (y0+1) _ r c hr (by omega) hc

/-! ### Loop characterisations for the interpolated doubler -/

theorem interp_row_loop_frame (pm : Nat) (s : Nat → Nat) (r : Nat) :
    ∀ cnt x img r' c', (r' ≠ r ∨ c' < 2*x+1 ∨ 2*x + 2*cnt < c') →
      interp_row_loop pm s r cnt x img r' c' = img r' c' := by
  intro cnt
  induction cnt with
  | zero => intro x img r' c' _; rfl
  | succ n ih =>
      intro x img r' c' h
      show interp_row_loop pm s r n (x+1) _ r' c' = _
      rw [ih (x+1) _ r' c' (by omega)]
      rw [pset_other _ _ _ _ _ _ (by omega), pset_other _ _ _ _ _ _ (by omega)]

theorem interp_row_loop_val (pm : Nat) (s : Nat → Nat) (r : Nat) :
    ∀ cnt x img k, k < cnt →
      interp_row_loop pm s r cnt x img r (2*(x+k)+1)
        = (SF_DS * u8 (s (x+k)) + u8 (s (x+k+1))) / DIV_DS ^^^ pm ∧
      interp_row_loop pm s r cnt x img r (2*(x+k)+2)
        = (u8 (s (x+k)) + SF_DS * u8 (s (x+k+1))) / DIV_DS ^^^ pm := by
  intro cnt
  induction cnt with
  | zero => intro x img k hk; omega
  | succ n ih =>
      intro x img k hk
      show interp_row_loop pm s r n (x+1) _ r _ = _ ∧ interp_row_loop pm s r n (x+1) _ r _ = _
      rcases Nat.eq_zero_or_pos k with hk0 | hkpos
      · subst hk0
        rw [interp_row_loop_frame pm s r n (x+1) _ r _ (by omega),
            interp_row_loop_frame pm s r n (x+1) _ r _ (by omega)]
        simp only [Nat.add_zero]
        constructor
        · rw [pset_other _ _ _ _ _ _ (by omega), pset_same]
        · rw [pset_same]
      · obtain ⟨k', rfl⟩ : ∃ k', k = k' + 1 := ⟨k - 1, by omega⟩
        have h2 := ih (x+1) (pset (pset img r (2*x+1)
            ((SF_DS * u8 (s x) + u8 (s (x+1))) / DIV_DS ^^^ pm)) r (2*x+2)
            ((u8 (s x) + SF_DS * u8 (s (x+1))) / DIV_DS ^^^ pm)) k' (by omega)
        constructor
        · have := h2.1
          rw [show 2*(x+(k'+1))+1 = 2*((x+1)+k')+1 by omega, this,
              show x+(k'+1) = (x+1)+k' by omega, show (x+1)+k'+1 = x+(k'+1)+1 by omega,
              show (x+1)+k' = x+(k'+1) by omega]
        · have := h2.2
          rw [show 2*(x+(k'+1))+2 = 2*((x+1)+k')+2 by omega, this,
              show x+(k'+1) = (x+1)+k' by omega, show (x+1)+k'+1 = x+(k'+1)+1 by omega,
              show (x+1)+k' = x+(k'+1) by omega]

theorem interp_col_loop_frame (pm : Nat) (t : Nat → Nat) (c : Nat) :
    ∀ cnt y img r' c', (c' ≠ c ∨ r' < 2*y+1 ∨ 2*y + 2*cnt < r') →
      interp_col_loop pm t c cnt y img r' c' = img r' c' := by
  intro cnt
  induction cnt with
  | zero => intro y img r' c' _; rfl
  | succ n ih =>
      intro y img r' c' h
      show interp_col_loop pm t c n (y+1) _ r' c' = _
      rw [ih (y+1) _ r' c' (by omega)]
      rw [pset_other _ _ _ _ _ _ (by omega), pset_other _ _ _ _ _ _ (by omega)]

theorem interp_col_loop_val (pm : Nat) (t : Nat → Nat) (c : Nat) :
    ∀ cnt y img k, k < cnt →
      interp_col_loop pm t c cnt y img (2*(y+k)+1) c
        = (SF_DS * u8 (t (y+k)) + u8 (t (y+k+1))) / DIV_DS ^^^ pm ∧
      interp_col_loop pm t c cnt y img (2*(y+k)+2) c
        = (u8 (t (y+k)) + SF_DS * u8 (t (y+k+1))) / DIV_DS ^^^ pm := by
  intro cnt
  induction cnt with
  | zero => intro y img k hk; omega
  | succ n ih =>
      intro y img k hk
      show interp_col_loop pm t c n (y+1) _ _ c = _ ∧ interp_col_loop pm t c n (y+1) _ _ c = _
      rcases Nat.eq_zero_or_pos k with hk0 | hkpos
      · subst hk0
        rw [interp_col_loop_frame pm t c n (y+1) _ _ c (by omega),
            interp_col_loop_frame pm t c n (y+1) _ _ c (by omega)]
        simp only [Nat.add_zero]
        constructor
        · rw [pset_other _ _ _ _ _ _ (by omega), pset_same]
        · rw [pset_same]
      · obtain ⟨k', rfl⟩ : ∃ k', k = k' + 1 := ⟨k - 1, by omega⟩
        have h2 := ih (y+1) (pset (pset img (2*y+1) c
            ((SF_DS * u8 (t y) + u8 (t (y+1))) / DIV_DS ^^^ pm)) (2*y+2) c
            ((u8 (t y) + SF_DS * u8 (t (y+1))) / DIV_DS ^^^ pm)) k' (by omega)
        constructor
        · have := h2.1
          rw [show 2*(y+(k'+1))+1 = 2*((y+1)+k')+1 by omega, this,
              show y+(k'+1) = (y+1)+k' by omega, show (y+1)+k'+1 = y+(k'+1)+1 by omega,
              show (y+1)+k' = y+(k'+1) by omega]
        · have := h2.2
          rw [show 2*(y+(k'+1))+2 = 2*((y+1)+k')+2 by omega, this,
              show y+(k'+1) = (y+1)+k' by omega, show (y+1)+k'+1 = y+(k'+1)+1 by omega,
              show (y+1)+k' = y+(k'+1) by omega]

theorem interp_inner_x_frame (pm : Nat) (src : Nat → Nat → Nat) (y : Nat) :
    ∀ cnt x img r' c',
      ((r' ≠ 2*y+1 ∧ r' ≠ 2*y+2) ∨ c' < 2*x+1 ∨ 2*x + 2*cnt < c') →
      interp_inner_x pm src y cnt x img r' c' = img r' c' := by
  intro cnt
  induction cnt with
  | zero => intro x img r' c' _; rfl
  | succ n ih =>
      intro x img r' c' h
      show interp_inner_x pm src y n (x+1) _ r' c' = _
      rw [ih (x+1) _ r' c' (by omega)]
      rw [pset_other _ _ _ _ _ _ (by omega), pset_other _ _ _ _ _ _ (by omega),
          pset_other _ _ _ _ _ _ (by omega), pset_other _ _ _ _ _ _ (by omega)]

theorem interp_inner_x_val (pm : Nat) (src : Nat → Nat → Nat) (y : Nat) :
    ∀ cnt x img k, k < cnt →
      interp_inner_x pm src y cnt x img (2*y+1) (2*(x+k)+1)
        = (SF_QS * u8 (src y (x+k)) + u8 (src y (x+k+1))
            + u8 (src (y+1) (x+k)) + u8 (src (y+1) (x+k+1))) / DIV_QS ^^^ pm ∧
      interp_inner_x pm src y cnt x img (2*y+2) (2*(x+k)+1)
        = (u8 (src y (x+k)) + u8 (src y (x+k+1))
            + SF_QS * u8 (src (y+1) (x+k)) + u8 (src (y+1) (x+k+1))) / DIV_QS ^^^ pm ∧
      interp_inner_x pm src y cnt x img (2*y+1) (2*(x+k)+2)
        = (u8 (src y (x+k)) + SF_QS * u8 (src y (x+k+1))
            + u8 (src (y+1) (x+k)) + u8 (src (y+1) (x+k+1))) / DIV_QS ^^^ pm ∧
      interp_inner_x pm src y cnt x img (2*y+2) (2*(x+k)+2)
        = (u8 (src y (x+k)) + u8 (src y (x+k+1))
            + u8 (src (y+1) (x+k)) + SF_QS * u8 (src (y+1) (x+k+1))) / DIV_QS ^^^ pm := by
  intro cnt
  induction cnt with
  | zero => intro x img k hk; omega
  | succ n ih =>
      intro x img k hk
      simp only [interp_inner_x]
      rcases Nat.eq_zero_or_pos k with hk0 | hkpos
      · subst hk0
        simp only [Nat.add_zero]
        refine ⟨?_, ?_, ?_, ?_⟩ <;>
          (rw [interp_inner_x_frame pm src y n (x+1) _ _ _ (by omega)]
           repeat rw [pset_other _ _ _ _ _ _ (by omega)]
           rw [pset_same])
      · obtain ⟨k', rfl⟩ : ∃ k', k = k' + 1 := ⟨k - 1, by omega⟩
        rw [(by omega : x + (k'+1) = (x+1)+k')]
        exact ih (x+1) _ k' (by omega)

theorem interp_inner_y_frame (pm : Nat) (src : Nat → Nat → Nat) (W : Nat) :
    ∀ cnt y img r' c',
      (r' < 2*y+1 ∨ 2*y + 2*cnt < r' ∨ c' < 1 ∨ 2*(W-1) < c') →
      interp_inner_y pm src W cnt y img r' c' = img r' c' := by
  intro cnt
  induction cnt with
  | zero => intro y img r' c' _; rfl
  | succ n ih =>
      intro y img r' c' h
      show interp_inner_y pm src W n (y+1) _ r' c' = _
      rw [ih (y+1) _ r' c' (by omega)]
      rw [interp_inner_x_frame pm src y (W-1) 0 _ r' c' (by omega)]

theorem interp_inner_y_val (pm : Nat) (src : Nat → Nat → Nat) (W : Nat) :
    ∀ cnt y img k j, k < cnt → j < W-1 →
      interp_inner_y pm src W cnt y img (2*(y+k)+1) (2*j+1)
        = (SF_QS * u8 (src (y+k) j) + u8 (src (y+k) (j+1))
            + u8 (src (y+k+1) j) + u8 (src (y+k+1) (j+1))) / DIV_QS ^^^ pm ∧
      interp_inner_y pm src W cnt y img (2*(y+k)+2) (2*j+1)
        = (u8 (src (y+k) j) + u8 (src (y+k) (j+1))
            + SF_QS * u8 (src (y+k+1) j) + u8 (src (y+k+1) (j+1))) / DIV_QS ^^^ pm ∧
      interp_inner_y pm src W cnt y img (2*(y+k)+1) (2*j+2)
        = (u8 (src (y+k) j) + SF_QS * u8 (src (y+k) (j+1))
            + u8 (src (y+k+1) j) + u8 (src (y+k+1) (j+1))) / DIV_QS ^^^ pm ∧
      interp_inner_y pm src W cnt y img (2*(y+k)+2) (2*j+2)
        = (u8 (src (y+k) j) + u8 (src (y+k) (j+1))
            + u8 (src (y+k+1) j) + SF_QS * u8 (src (y+k+1) (j+1))) / DIV_QS ^^^ pm := by
  intro cnt
  induction cnt with
  | zero => intro y img k j hk hj; omega
  | succ n ih =>
      intro y img k j hk hj
      simp only [interp_inner_y]
      rcases Nat.eq_zero_or_pos k with hk0 | hkpos
      · subst hk0
        simp only [Nat.add_zero]
        have hval := interp_inner_x_val pm src y (W-1) 0 img j hj
        simp only [Nat.zero_add] at hval
        refine ⟨?_, ?_, ?_, ?_⟩ <;>
          (rw [interp_inner_y_frame pm src W n (y+1) _ _ _ (by omega)]
           first
           | exact hval.1
           | exact hval.2.1
           | exact hval.2.2.1
           | exact hval.2.2.2)
      · obtain ⟨k', rfl⟩ : ∃ k', k = k' + 1 := ⟨k - 1, by omega⟩
        rw [(by omega : y + (k'+1) = (y+1)+k')]
        exact ih (y+1) _ k' j (by omega) hj

/-! Corollaries of the loop value lemmas with the start index fixed at 0 and
the image argument explicit, in the form needed below. -/

theorem interp_row_loop_val0 (pm : Nat) (s : Nat → Nat) (r cnt : Nat) (img : Img)
    (k : Nat) (hk : k < cnt) :
    interp_row_loop pm s r cnt 0 img r (2*k+1)
      = (SF_DS * u8 (s k) + u8 (s (k+1))) / DIV_DS ^^^ pm ∧
    interp_row_loop pm s r cnt 0 img r (2*k+2)
      = (u8 (s k) + SF_DS * u8 (s (k+1))) / DIV_DS ^^^ pm := by
  have h := interp_row_loop_val pm s r cnt 0 img k hk
  simpa using h

theorem interp_col_loop_val0 (pm : Nat) (t : Nat → Nat) (c cnt : Nat) (img : Img)
    (k : Nat) (hk : k < cnt) :
    interp_col_loop pm t c cnt 0 img (2*k+1) c
      = (SF_DS * u8 (t k) + u8 (t (k+1))) / DIV_DS ^^^ pm ∧
    interp_col_loop pm t c cnt 0 img (2*k+2) c
      = (u8 (t k) + SF_DS * u8 (t (k+1))) / DIV_DS ^^^ pm := by
  have h := interp_col_loop_val pm t c cnt 0 img k hk
  simpa using h

theorem interp_inner_y_val0 (pm : Nat) (src : Nat → Nat → Nat) (W cnt : Nat)
    (img : Img) (k j : Nat) (hk : k < cnt) (hj : j < W-1) :
    interp_inner_y pm src W cnt 0 img (2*k+1) (2*j+1)
      = (SF_QS * u8 (src k j) + u8 (src k (j+1))
          + u8 (src (k+1) j) + u8 (src (k+1) (j+1))) / DIV_QS ^^^ pm ∧
    interp_inner_y pm src W cnt 0 img (2*k+2) (2*j+1)
      = (u8 (src k j) + u8 (src k (j+1))
          + SF_QS * u8 (src (k+1) j) + u8 (src (k+1) (j+1))) / DIV_QS ^^^ pm ∧
    interp_inner_y pm src W cnt 0 img (2*k+1) (2*j+2)
      = (u8 (src k j) + SF_QS * u8 (src k (j+1))
          + u8 (src (k+1) j) + u8 (src (k+1) (j+1))) / DIV_QS ^^^ pm ∧
    interp_inner_y pm src W cnt 0 img (2*k+2) (2*j+2)
      = (u8 (src k j) + u8 (src k (j+1))
          + u8 (src (k+1) j) + SF_QS * u8 (src (k+1) (j+1))) / DIV_QS ^^^ pm := by
  have h := interp_inner_y_val pm src W cnt 0 img k j hk hj
  simpa using h

/-! ### Position-by-position output of `render_interp_agc_data` -/

theorem interp_out_corners (W H pm : Nat) (hW : 2 ≤ W) (hH : 2 ≤ H)
    (src : Nat → Nat → Nat) (img : Img) :
    render_interp_agc_data W H pm src img 0 0 = u8 (src 0 0) ^^^ pm ∧
    render_interp_agc_data W H pm src img 0 (2*W-1) = u8 (src 0 (W-1)) ^^^ pm ∧
    render_interp_agc_data W H pm src img (2*H-1) 0 = u8 (src (H-1) 0) ^^^ pm ∧
    render_interp_agc_data W H pm src img (2*H-1) (2*W-1)
      = u8 (src (H-1) (W-1)) ^^^ pm := by
  simp only [render_interp_agc_data, interp_set_outer_row, interp_set_outer_col,
    interp_set_inner, interp_set_pixel, if_true, Bool.false_eq_true, if_false]
  refine ⟨?_, ?_, ?_, ?_⟩ <;>
    (rw [interp_inner_y_frame pm src W (H-1) 0 _ _ _ (by omega)]
     rw [interp_col_loop_frame pm _ (2*W-1) (H-1) 0 _ _ _ (by omega)]
     rw [interp_col_loop_frame pm _ 0 (H-1) 0 _ _ _ (by omega)]
     rw [interp_row_loop_frame pm _ (2*H-1) (W-1) 0 _ _ _ (by omega)]
     rw [interp_row_loop_frame pm _ 0 (W-1) 0 _ _ _ (by omega)]
     repeat rw [pset_other _ _ _ _ _ _ (by omega)]
     rw [pset_same])

theorem interp_out_top (W H pm : Nat) (hW : 2 ≤ W) (hH : 2 ≤ H)
    (src : Nat → Nat → Nat) (img : Img) (x : Nat) (hx : x < W-1) :
    render_interp_agc_data W H pm src img 0 (2*x+1)
      = (SF_DS * u8 (src 0 x) + u8 (src 0 (x+1))) / DIV_DS ^^^ pm ∧
    render_interp_agc_data W H pm src img 0 (2*x+2)
      = (u8 (src 0 x) + SF_DS * u8 (src 0 (x+1))) / DIV_DS ^^^ pm := by
  simp only [render_interp_agc_data, interp_set_outer_row, interp_set_outer_col,
    interp_set_inner, interp_set_pixel, if_true, Bool.false_eq_true, if_false]
  constructor <;>
    (rw [interp_inner_y_frame pm src W (H-1) 0 _ _ _ (by omega)]
     rw [interp_col_loop_frame pm _ (2*W-1) (H-1) 0 _ _ _ (by omega)]
     rw [interp_col_loop_frame pm _ 0 (H-1) 0 _ _ _ (by omega)]
     rw [interp_row_loop_frame pm _ (2*H-1) (W-1) 0 _ _ _ (by omega)]
     first
     | exact (interp_row_loop_val0 pm (src 0) 0 (W-1) _ x hx).1
     | exact (interp_row_loop_val0 pm (src 0) 0 (W-1) _ x hx).2)

theorem interp_out_bottom (W H pm : Nat) (hW : 2 ≤ W) (hH : 2 ≤ H)
    (src : Nat → Nat → Nat) (img : Img) (x : Nat) (hx : x < W-1) :
    render_interp_agc_data W H pm src img (2*H-1) (2*x+1)
      = (SF_DS * u8 (src (H-1) x) + u8 (src (H-1) (x+1))) / DIV_DS ^^^ pm ∧
    render_interp_agc_data W H pm src img (2*H-1) (2*x+2)
      = (u8 (src (H-1) x) + SF_DS * u8 (src (H-1) (x+1))) / DIV_DS ^^^ pm := by
  simp only [render_interp_agc_data, interp_set_outer_row, interp_set_outer_col,
    interp_set_inner, interp_set_pixel, if_true, Bool.false_eq_true, if_false]
  constructor <;>
    (rw [interp_inner_y_frame pm src W (H-1) 0 _ _ _ (by omega)]
     rw [interp_col_loop_frame pm _ (2*W-1) (H-1) 0 _ _ _ (by omega)]
     rw [interp_col_loop_frame pm _ 0 (H-1) 0 _ _ _ (by omega)]
     first
     | exact (interp_row_loop_val0 pm (src (H-1)) (2*H-1) (W-1) _ x hx).1
     | exact (interp_row_loop_val0 pm (src (H-1)) (2*H-1) (W-1) _ x hx).2)

theorem interp_out_left (W H pm : Nat) (hW : 2 ≤ W) (hH : 2 ≤ H)
    (src : Nat → Nat → Nat) (img : Img) (y : Nat) (hy : y < H-1) :
    render_interp_agc_data W H pm src img (2*y+1) 0
      = (SF_DS * u8 (src y 0) + u8 (src (y+1) 0)) / DIV_DS ^^^ pm ∧
    render_interp_agc_data W H pm src img (2*y+2) 0
      = (u8 (src y 0) + SF_DS * u8 (src (y+1) 0)) / DIV_DS ^^^ pm := by
  simp only [render_interp_agc_data, interp_set_outer_row, interp_set_outer_col,
    interp_set_inner, interp_set_pixel, if_true, Bool.false_eq_true, if_false]
  constructor <;>
    (rw [interp_inner_y_frame pm src W (H-1) 0 _ _ _ (by omega)]
     rw [interp_col_loop_frame pm _ (2*W-1) (H-1) 0 _ _ _ (by omega)]
     first
     | exact (interp_col_loop_val0 pm (fun y => src y 0) 0 (H-1) _ y hy).1
     | exact (interp_col_loop_val0 pm (fun y => src y 0) 0 (H-1) _ y hy).2)

theorem interp_out_right (W H pm : Nat) (hW : 2 ≤ W) (hH : 2 ≤ H)
    (src : Nat → Nat → Nat) (img : Img) (y : Nat) (hy : y < H-1) :
    render_interp_agc_data W H pm src img (2*y+1) (2*W-1)
      = (SF_DS * u8 (src y (W-1)) + u8 (src (y+1) (W-1))) / DIV_DS ^^^ pm ∧
    render_interp_agc_data W H pm src img (2*y+2) (2*W-1)
      = (u8 (src y (W-1)) + SF_DS * u8 (src (y+1) (W-1))) / DIV_DS ^^^ pm := by
  simp only [render_interp_agc_data, interp_set_outer_row, interp_set_outer_col,
    interp_set_inner, interp_set_pixel, if_true, Bool.false_eq_true, if_false]
  constructor <;>
    (rw [interp_inner_y_frame pm src W (H-1) 0 _ _ _ (by omega)]
     first
     | exact (interp_col_loop_val0 pm (fun y => src y (W-1)) (2*W-1) (H-1) _ y hy).1
     | exact (interp_col_loop_val0 pm (fun y => src y (W-1)) (2*W-1) (H-1) _ y hy).2)

theorem interp_out_inner (W H pm : Nat) (hW : 2 ≤ W) (hH : 2 ≤ H)
    (src : Nat → Nat → Nat) (img : Img) (y x : Nat) (hy : y < H-1) (hx : x < W-1) :
    render_interp_agc_data W H pm src img (2*y+1) (2*x+1)
      = (SF_QS * u8 (src y x) + u8 (src y (x+1))
          + u8 (src (y+1) x) + u8 (src (y+1) (x+1))) / DIV_QS ^^^ pm ∧
    render_interp_agc_data W H pm src img (2*y+2) (2*x+1)
      = (u8 (src y x) + u8 (src y (x+1))
          + SF_QS * u8 (src (y+1) x) + u8 (src (y+1) (x+1))) / DIV_QS ^^^ pm ∧
    render_interp_agc_data W H pm src img (2*y+1) (2*x+2)
      = (u8 (src y x) + SF_QS * u8 (src y (x+1))
          + u8 (src (y+1) x) + u8 (src (y+1) (x+1))) / DIV_QS ^^^ pm ∧
    render_interp_agc_data W H pm src img (2*y+2) (2*x+2)
      = (u8 (src y x) + u8 (src y (x+1))
          + u8 (src (y+1) x) + SF_QS * u8 (src (y+1) (x+1))) / DIV_QS ^^^ pm := by
  simp only [render_interp_agc_data, interp_set_outer_row, interp_set_outer_col,
    interp_set_inner, interp_set_pixel, if_true, Bool.false_eq_true, if_false]
  exact interp_inner_y_val0 pm src W (H-1) _ y x hy hx

/-- C1: for every source frame of 8-bit values, the interpolated 2x doubler
`render_interp_agc_data` produces output (run here with palette modifier 0,
i.e. before any palette XOR) in which each of the 4 corner output pixels
equals its single source pixel exactly, each edge output pixel (top/bottom
row, left/right column) equals `(3*owner + neighbor) / 4` of its two adjacent
source pixels, and each interior output pixel equals
`(5*owner + n1 + n2 + n3) / 8` of its four neighbouring source pixels. -/
theorem interp_doubler_weighted_blend (W H : Nat) (hW : 2 ≤ W) (hH : 2 ≤ H)
    (src : Nat → Nat → Nat) (hsrc : ∀ y x, src y x ≤ 255) (img : Img) :
    (render_interp_agc_data W H 0 src img 0 0 = src 0 0 ∧
     render_interp_agc_data W H 0 src img 0 (2*W-1) = src 0 (W-1) ∧
     render_interp_agc_data W H 0 src img (2*H-1) 0 = src (H-1) 0 ∧
     render_interp_agc_data W H 0 src img (2*H-1) (2*W-1) = src (H-1) (W-1)) ∧
    (∀ x, x < W-1 →
      render_interp_agc_data W H 0 src img 0 (2*x+1)
        = (3 * src 0 x + src 0 (x+1)) / 4 ∧
      render_interp_agc_data W H 0 src img 0 (2*x+2)
        = (src 0 x + 3 * src 0 (x+1)) / 4) ∧
    (∀ x, x < W-1 →
      render_interp_agc_data W H 0 src img (2*H-1) (2*x+1)
        = (3 * src (H-1) x + src (H-1) (x+1)) / 4 ∧
      render_interp_agc_data W H 0 src img (2*H-1) (2*x+2)
        = (src (H-1) x + 3 * src (H-1) (x+1)) / 4) ∧
    (∀ y, y < H-1 →
      render_interp_agc_data W H 0 src img (2*y+1) 0
        = (3 * src y 0 + src (y+1) 0) / 4 ∧
      render_interp_agc_data W H 0 src img (2*y+2) 0
        = (src y 0 + 3 * src (y+1) 0) / 4) ∧
    (∀ y, y < H-1 →
      render_interp_agc_data W H 0 src img (2*y+1) (2*W-1)
        = (3 * src y (W-1) + src (y+1) (W-1)) / 4 ∧
      render_interp_agc_data W H 0 src img (2*y+2) (2*W-1)
        = (src y (W-1) + 3 * src (y+1) (W-1)) / 4) ∧
    (∀ y x, y < H-1 → x < W-1 →
      render_interp_agc_data W H 0 src img (2*y+1) (2*x+1)
        = (5 * src y x + src y (x+1) + src (y+1) x + src (y+1) (x+1)) / 8 ∧
      render_interp_agc_data W H 0 src img (2*y+2) (2*x+1)
        = (src y x + src y (x+1) + 5 * src (y+1) x + src (y+1) (x+1)) / 8 ∧
      render_interp_agc_data W H 0 src img (2*y+1) (2*x+2)
        = (src y x + 5 * src y (x+1) + src (y+1) x + src (y+1) (x+1)) / 8 ∧
      render_interp_agc_data W H 0 src img (2*y+2) (2*x+2)
        = (src y x + src y (x+1) + src (y+1) x + 5 * src (y+1) (x+1)) / 8) := by
  have hu : ∀ y x, u8 (src y x) = src y x := fun y x =>
    Nat.mod_eq_of_lt (by have := hsrc y x; omega)
  refine ⟨?_, ?_, ?_, ?_, ?_, ?_⟩
  · have h := interp_out_corners W H 0 hW hH src img
    simpa [hu] using h
  · intro x hx
    have h := interp_out_top W H 0 hW hH src img x hx
    simpa [hu, SF_DS, DIV_DS] using h
  · intro x hx
    have h := interp_out_bottom W H 0 hW hH src img x hx
    simpa [hu, SF_DS, DIV_DS] using h
  · intro y hy
    have h := interp_out_left W H 0 hW hH src img y hy
    simpa [hu, SF_DS, DIV_DS] using h
  · intro y hy
    have h := interp_out_right W H 0 hW hH src img y hy
    simpa [hu, SF_DS, DIV_DS] using h
  · intro y x hy hx
    have h := interp_out_inner W H 0 hW hH src img y x hy hx
    simpa [hu, SF_QS, DIV_QS] using h

/-- Witness for `interp_doubler_weighted_blend` at a concrete 2x2 frame. -/
theorem interp_doubler_weighted_blend_witness :
    render_interp_agc_data 2 2 0
        (fun y x => if y = 0 then (if x = 0 then 100 else 200)
                    else (if x = 0 then 150 else 250)) (fun _ _ => 0) 1 1
      = (5 * 100 + 200 + 150 + 250) / 8 :=
  ((interp_doubler_weighted_blend 2 2 (by decide) (by decide)
      (fun y x => if y = 0 then (if x = 0 then 100 else 200)
                  else (if x = 0 then 150 else 250))
      (by intro y x; dsimp only; split <;> split <;> omega)
      (fun _ _ => 0)).2.2.2.2.2 0 0 (by decide) (by decide)).1

/-- Every in-range pixel of the interpolated doubler's output is the
palette-independent base value XORed with the palette modifier: the run with
modifier `pm` and the run with modifier 0 (from any two initial images) agree
up to `^^^ pm`. -/
theorem interp_pm_pair (W H pm : Nat) (hW : 2 ≤ W) (hH : 2 ≤ H)
    (src : Nat → Nat → Nat) (img img' : Img) (r c : Nat)
    (hr : r < 2*H) (hc : c < 2*W) :
    render_interp_agc_data W H pm src img r c
      = render_interp_agc_data W H 0 src img' r c ^^^ pm := by
  obtain hr3 : r = 0 ∨ r = 2*H-1 ∨ ∃ y, y < H-1 ∧ (r = 2*y+1 ∨ r = 2*y+2) := by
    rcases Nat.lt_or_ge r 1 with h | h
    · left; omega
    rcases Nat.lt_or_ge r (2*H-1) with h2 | h2
    · exact Or.inr (Or.inr ⟨(r-1)/2, by omega, by omega⟩)
    · right; left; omega
  obtain hc3 : c = 0 ∨ c = 2*W-1 ∨ ∃ x, x < W-1 ∧ (c = 2*x+1 ∨ c = 2*x+2) := by
    rcases Nat.lt_or_ge c 1 with h | h
    · left; omega
    rcases Nat.lt_or_ge c (2*W-1) with h2 | h2
    · exact Or.inr (Or.inr ⟨(c-1)/2, by omega, by omega⟩)
    · right; left; omega
  rcases hr3 with rfl | hrH | ⟨y, hylt, hy⟩
  · rcases hc3 with rfl | hcW | ⟨x, hxlt, hx⟩
    · rw [(interp_out_corners W H pm hW hH src img).1,
          (interp_out_corners W H 0 hW hH src img').1, Nat.xor_zero]
    · subst hcW
      rw [(interp_out_corners W H pm hW hH src img).2.1,
          (interp_out_corners W H 0 hW hH src img').2.1, Nat.xor_zero]
    · rcases hx with rfl | rfl
      · rw [(interp_out_top W H pm hW hH src img x hxlt).1,
            (interp_out_top W H 0 hW hH src img' x hxlt).1, Nat.xor_zero]
      · rw [(interp_out_top W H pm hW hH src img x hxlt).2,
            (interp_out_top W H 0 hW hH src img' x hxlt).2, Nat.xor_zero]
  · subst hrH
    rcases hc3 with rfl | hcW | ⟨x, hxlt, hx⟩
    · rw [(interp_out_corners W H pm hW hH src img).2.2.1,
          (interp_out_corners W H 0 hW hH src img').2.2.1, Nat.xor_zero]
    · subst hcW
      rw [(interp_out_corners W H pm hW hH src img).2.2.2,
          (interp_out_corners W H 0 hW hH src img').2.2.2, Nat.xor_zero]
    · rcases hx with rfl | rfl
      · rw [(interp_out_bottom W H pm hW hH src img x hxlt).1,
            (interp_out_bottom W H 0 hW hH src img' x hxlt).1, Nat.xor_zero]
      · rw [(interp_out_bottom W H pm hW hH src img x hxlt).2,
            (interp_out_bottom W H 0 hW hH src img' x hxlt).2, Nat.xor_zero]
  · rcases hc3 with rfl | hcW | ⟨x, hxlt, hx⟩
    · rcases hy with rfl | rfl
      · rw [(interp_out_left W H pm hW hH src img y hylt).1,
            (interp_out_left W H 0 hW hH src img' y hylt).1, Nat.xor_zero]
      · rw [(interp_out_left W H pm hW hH src img y hylt).2,
            (interp_out_left W H 0 hW hH src img' y hylt).2, Nat.xor_zero]
    · subst hcW
      rcases hy with rfl | rfl
      · rw [(interp_out_right W H pm hW hH src img y hylt).1,
            (interp_out_right W H 0 hW hH src img' y hylt).1, Nat.xor_zero]
      · rw [(interp_out_right W H pm hW hH src img y hylt).2,
            (interp_out_right W H 0 hW hH src img' y hylt).2, Nat.xor_zero]
    · rcases hy with rfl | rfl <;> rcases hx with rfl | rfl
      · rw [(interp_out_inner W H pm hW hH src img y x hylt hxlt).1,
            (interp_out_inner W H 0 hW hH src img' y x hylt hxlt).1, Nat.xor_zero]
      · rw [(interp_out_inner W H pm hW hH src img y x hylt hxlt).2.2.1,
            (interp_out_inner W H 0 hW hH src img' y x hylt hxlt).2.2.1, Nat.xor_zero]
      · rw [(interp_out_inner W H pm hW hH src img y x hylt hxlt).2.1,
            (interp_out_inner W H 0 hW hH src img' y x hylt hxlt).2.1, Nat.xor_zero]
      · rw [(interp_out_inner W H pm hW hH src img y x hylt hxlt).2.2.2,
            (interp_out_inner W H 0 hW hH src img' y x hylt hxlt).2.2.2, Nat.xor_zero]

/-- C2: the radiometric dynamic-range scaling maps each source sample `v` to
0 when `v` is below `min`, otherwise to `min 255 ((v - min) * 255 / (max - min))`
using integer division with the divisor floored to 1 when `max = min`; the
doubled radiometric renderer applies exactly this map to the owning source
sample of every output pixel; and in particular for min=100, max=250 a sample
of 175 maps to 127, samples below min map to 0, and samples ≥ max map to 255. -/
theorem rad_scale_spec :
    (∀ mn mx v, mn ≤ mx →
      rad_scale mn mx v
        = if v < mn then 0 else min 255 ((v - mn) * 255 / max (mx - mn) 1)) ∧
    (∀ W H : Nat, ∀ lep : lep_buffer_t, ∀ img : Img, ∀ r c : Nat,
      r < 2*H → c < 2*W →
      render_double_rad_data W H 0 lep img r c
        = rad_scale lep.lep_min_val lep.lep_max_val (lep.lep_bufferP (r/2) (c/2))) ∧
    rad_scale 100 250 175 = 127 ∧
    (∀ v, v < 100 → rad_scale 100 250 v = 0) ∧
    (∀ v, 250 ≤ v → rad_scale 100 250 v = 255) := by
  refine ⟨?_, ?_, ?_, ?_, ?_⟩
  · intro mn mx v h
    simp only [rad_scale]
    by_cases h1 : v < mn
    · simp [h1]
    · simp only [h1, if_false]
      have hd : (if mx - mn = 0 then 1 else mx - mn) = max (mx - mn) 1 := by
        split <;> omega
      rw [hd]
      generalize (v - mn) * 255 / max (mx - mn) 1 = t
      split <;> omega
  · intro W H lep img r c hr hc
    have h := double_y_loop_out W
      (fun y x => rad_scale lep.lep_min_val lep.lep_max_val (lep.lep_bufferP y x) ^^^ 0)
      H 0 img r c (by omega) (by omega) hc
    simpa [render_double_rad_data, Nat.xor_zero] using h
  · decide
  · intro v hv
    simp [rad_scale, hv]
  · intro v hv
    have h1 : ¬ v < 100 := by omega
    have h2 : (v - 100) * 255 / 150 ≥ 255 := by omega
    simp only [rad_scale, h1, if_false]
    norm_num
    omega

/-- Witness for `rad_scale_spec` at concrete inputs: 175 maps to 127,
50 (below min) to 0, 250 (= max) to 255, and the doubled renderer applies
the map at output pixel (1, 1) of a 1x1 frame. -/
theorem rad_scale_spec_witness :
    rad_scale 100 250 175 = 127 ∧ rad_scale 100 250 50 = 0 ∧
    rad_scale 100 250 250 = 255 ∧
    render_double_rad_data 1 1 0 ⟨100, 250, fun _ _ => 175⟩ (fun _ _ => 0) 1 1
      = rad_scale 100 250 175 :=
  ⟨rad_scale_spec.2.2.1,
   rad_scale_spec.2.2.2.1 50 (by decide),
   rad_scale_spec.2.2.2.2 250 (by decide),
   rad_scale_spec.2.1 1 1 ⟨100, 250, fun _ _ => 175⟩ (fun _ _ => 0) 1 1
     (by decide) (by decide)⟩

/-- C3: for every input frame and every rendering strategy (interpolated or
doubled, AGC or radiometric), rendering with the black-hot palette option set
and rendering the same frame with it clear produce bitwise-complementary base
rasters: at every pixel (r, c) of the 2W x 2H raster,
`black[r][c] = 0xFF ^^^ white[r][c]`. -/
theorem render_palette_inversion (W H : Nat) (hW : 2 ≤ W) (hH : 2 ≤ H)
    (lep : lep_buffer_t) (g : gui_state_t) (img1 img2 : Img) (r c : Nat)
    (hr : r < 2*H) (hc : c < 2*W) :
    render_lep_data W H lep img1 { g with black_hot_palette := true } r c
      = 0xFF ^^^ render_lep_data W H lep img2 { g with black_hot_palette := false } r c := by
  cases g
  simp only [render_lep_data, render_interp_rad_data, render_double_agc_data,
    render_double_rad_data, eq_self_iff_true, if_true, Bool.false_eq_true, if_false]
  split
  · split
    · -- interpolated, AGC
      rw [interp_pm_pair W H 255 hW hH _ img1 img2 r c hr hc, Nat.xor_comm]
    · -- interpolated, radiometric
      rw [interp_pm_pair W H 255 hW hH _ img1 img2 r c hr hc, Nat.xor_comm]
  · split
    · -- doubled, AGC
      rw [double_y_loop_out W _ H 0 img1 r c (by omega) (by omega) hc,
          double_y_loop_out W _ H 0 img2 r c (by omega) (by omega) hc]
      rw [Nat.xor_zero, Nat.xor_comm]
    · -- doubled, radiometric
      rw [double_y_loop_out W _ H 0 img1 r c (by omega) (by omega) hc,
          double_y_loop_out W _ H 0 img2 r c (by omega) (by omega) hc]
      rw [Nat.xor_zero, Nat.xor_comm]

/-- Witness for `render_palette_inversion` at a concrete frame, strategy and
pixel. -/
theorem render_palette_inversion_witness :
    render_lep_data 2 2 ⟨100, 250, fun _ _ => 175⟩ (fun _ _ => 0)
        ⟨true, true, true, true, true, true, true, true⟩ 0 0
      = 0xFF ^^^ render_lep_data 2 2 ⟨100, 250, fun _ _ => 175⟩ (fun _ _ => 0)
        ⟨true, false, true, true, true, true, true, true⟩ 0 0 := by
  have h := render_palette_inversion 2 2 (by decide) (by decide)
    ⟨100, 250, fun _ _ => 175⟩ ⟨true, false, true, true, true, true, true, true⟩
    (fun _ _ => 0) (fun _ _ => 0) 0 0 (by decide) (by decide)
  simpa using h

/-! ### Acquisition state machine (lep_task.c)

`lep_task` is an infinite `switch (task_state)` loop over local counters.  The
Run-state handler (lep_task.c lines 123–193) is embedded as a step function on
the task's local state, parameterised by the result of
`vospi_transfer_segment` and by the two configuration constants
`LEP_SYNC_FAIL_FAULT_LIMIT` and `LEP_RESET_FAIL_RETRY_SECS` that live in the
`lep_task.h` header (not among the provided sources).  Calls that leave the
task (`ctrl_set_fault_type`, `xTaskNotify` to the video task, the 185 ms
resynchronisation delay) are recorded as effects. -/

/-- `lep_task` states (`STATE_*` in lep_task.c). -/
inductive LepTaskMode
  | INIT
  | RUN
  | RE_INIT
  | ERROR
deriving DecidableEq

/-- Local state of `lep_task` (lep_task.c lines 79–83). -/
structure lep_state_t where
  task_state : LepTaskMode
  vid_buf_index : Nat
  vsync_count : Nat
  sync_fail_count : Nat
  reset_fail_count : Nat
deriving DecidableEq

/-- Externally visible effects of one Run-state iteration. -/
structure lep_effects_t where
  fault_set : Option Nat
  resync_pause : Bool
  notify_slot : Option Nat
deriving DecidableEq

/-- Fault code `CTRL_FAULT_NONE` (ctrl_task.h). -/
def CTRL_FAULT_NONE : Nat := 0

/-- Fault code `CTRL_FAULT_LEP_SYNC` (ctrl_task.h). -/
def CTRL_FAULT_LEP_SYNC : Nat := 6

/-- One `STATE_RUN` iteration of `lep_task` (lep_task.c lines 123–193), after
the vsync edge: `ok` is the result of `vospi_transfer_segment`.  On success:
clear the miss counter, hand the frame to slot `vid_buf_index`, notify that
slot and toggle the index, clear the sync fault if one had been raised, and
hold both failure counters at 0.  On failure: count the miss; on the 36th
consecutive miss pause for resynchronisation and either bump the failure
counter or — when it has reached `limit` (the post-increment test
`sync_fail_count++ == LEP_SYNC_FAIL_FAULT_LIMIT`) — clear it, report the sync
fault, and go to `RE_INIT` when no reset has been attempted
(`reset_fail_count == 0`) or to `ERROR` with the long backoff timer
(`reset_fail_count = LEP_RESET_FAIL_RETRY_SECS`) otherwise. -/
def lep_run_step (limit retry_secs : Nat) (ok : Bool) (s : lep_state_t) :
    lep_state_t × lep_effects_t :=
  if ok then
    ({ s with vsync_count := 0,
              vid_buf_index := if s.vid_buf_index = 0 then 1 else 0,
              sync_fail_count := 0,
              reset_fail_count := 0 },
     { fault_set := if s.sync_fail_count ≥ limit then some CTRL_FAULT_NONE else none,
       resync_pause := false,
       notify_slot := some s.vid_buf_index })
  else
    if s.vsync_count + 1 = 36 then
      if s.sync_fail_count = limit then
        if s.reset_fail_count = 0 then
          ({ s with vsync_count := 0, sync_fail_count := 0,
                    task_state := LepTaskMode.RE_INIT },
           { fault_set := some CTRL_FAULT_LEP_SYNC, resync_pause := true,
             notify_slot := none })
        else
          ({ s with vsync_count := 0, sync_fail_count := 0,
                    task_state := LepTaskMode.ERROR,
                    reset_fail_count := retry_secs },
           { fault_set := some CTRL_FAULT_LEP_SYNC, resync_pause := true,
             notify_slot := none })
      else
        ({ s with vsync_count := 0, sync_fail_count := s.sync_fail_count + 1 },
         { fault_set := none, resync_pause := true, notify_slot := none })
    else
      ({ s with vsync_count := s.vsync_count + 1 },
       { fault_set := none, resync_pause := false, notify_slot := none })

/-! ### Display handoff (video_task.c / lep_task.c)

The frame-handling section of one `vid_task` loop iteration (video_task.c
lines 166–180) is recorded as the ordered list of frame operations it
performs: notification 1 refers to raw slot 0 (written by `lep_task` with
`vid_buf_index == 0`), notification 2 to raw slot 1. -/

/-- A frame operation of the video task: wait for vsync
(`video_wait_frame`), copy a rendered buffer to the display
(`_vid_display_image`), or render a raw slot (`_vid_render_image`). -/
inductive VidAction
  | wait_frame
  | display (slot : Nat)
  | render (slot : Nat)
deriving DecidableEq

/-- The frame-handling actions of one `vid_task` loop iteration given the
pending `notify_image_1` / `notify_image_2` flags (video_task.c lines
166–180). -/
def vid_loop_actions (notify_image_1 notify_image_2 : Bool) : List VidAction :=
  (if notify_image_1
   then [VidAction.wait_frame, VidAction.display 1, VidAction.render 0] else []) ++
  (if notify_image_2
   then [VidAction.wait_frame, VidAction.display 0, VidAction.render 1] else [])

/-! ### Persistent settings store (ps_utilities.c)

Only the in-memory value cache (`val_palette_marker` / `val_emissivity` /
`val_units`) is modelled; the NVS flash writes mirror these values. -/

/-- Parameter-storage index `PS_PARM_PALETTE_MARKER` (ps_utilities.h). -/
def PS_PARM_PALETTE_MARKER : Nat := 0

/-- Parameter-storage index `PS_PARM_EMISSIVITY` (ps_utilities.h). -/
def PS_PARM_EMISSIVITY : Nat := 1

/-- Parameter-storage index `PS_PARM_UNITS` (ps_utilities.h). -/
def PS_PARM_UNITS : Nat := 2

/-- The persistent-settings value cache (ps_utilities.c lines 56–59). -/
structure ps_store where
  val_palette_marker : Nat
  val_emissivity : Nat
  val_units : Nat
deriving DecidableEq

/-- `ps_get_parm` (ps_utilities.c lines 141–160); an unsupported index is
logged and returns 0. -/
def ps_get_parm (ps : ps_store) (index : Nat) : Nat :=
  if index = PS_PARM_PALETTE_MARKER then ps.val_palette_marker
  else if index = PS_PARM_EMISSIVITY then ps.val_emissivity
  else if index = PS_PARM_UNITS then ps.val_units
  else 0

/-- `ps_set_parm` (ps_utilities.c lines 163–187); an unsupported index is
logged and ignored. -/
def ps_set_parm (ps : ps_store) (index v : Nat) : ps_store :=
  if index = PS_PARM_PALETTE_MARKER then { ps with val_palette_marker := v }
  else if index = PS_PARM_EMISSIVITY then { ps with val_emissivity := v }
  else if index = PS_PARM_UNITS then { ps with val_units := v }
  else ps

/-! ### Parameter session state machine (video_task.c)

`_vid_eval_parm_update` (video_task.c lines 215–314) reacts to one of three
stimuli per loop iteration (the `if / else if / else if` chain): a pending
value-change notification (short press), a pending selection-change
notification (long press), or — only when `parm_entry_timeout != 0` — the
expiry of the inactivity deadline.  The absolute `esp_timer` timestamps are
abstracted into the enabling condition of the timeout event. -/

/-- `NUM_PARMS` (video_task.c). -/
def NUM_PARMS : Nat := 3

/-- `PARM_INDEX_MARKER` (video_task.c). -/
def PARM_INDEX_MARKER : Nat := 0

/-- `PARM_INDEX_EMISSIVITY` (video_task.c). -/
def PARM_INDEX_EMISSIVITY : Nat := 1

/-- `PARM_INDEX_UNITS` (video_task.c). -/
def PARM_INDEX_UNITS : Nat := 2

/-- `NUM_M_PARM_VALS` (video_task.c). -/
def NUM_M_PARM_VALS : Nat := 4

/-- `M_PARM_MARKER_MASK` (video_task.c). -/
def M_PARM_MARKER_MASK : Nat := 0x01

/-- `M_PARM_PALETTE_MASK` (video_task.c). -/
def M_PARM_PALETTE_MASK : Nat := 0x02

/-- `NUM_E_PARM_VALS` (video_task.c). -/
def NUM_E_PARM_VALS : Nat := 23

/-- `NUM_U_PARM_VALS` (video_task.c). -/
def NUM_U_PARM_VALS : Nat := 2

/-- `CTRL_BTN_LONG_PRESS_MSEC` (ctrl_task.h). -/
def CTRL_BTN_LONG_PRESS_MSEC : Nat := 3000

/-- `PARM_ENTRY_TIMEOUT_MSEC` (video_task.c line 83). -/
def PARM_ENTRY_TIMEOUT_MSEC : Nat := CTRL_BTN_LONG_PRESS_MSEC + 7000

/-- `parm_e_value` (video_task.c lines 72–73). -/
def parm_e_value : List Nat :=
  [10, 20, 30, 40, 50, 60, 70, 80, 82, 84, 86, 88,
   90, 91, 92, 93, 94, 95, 96, 97, 98, 99, 100]

/-- `_vid_get_emissivity_index` (video_task.c lines 412–419): first index
whose table entry equals `cur_e`, else the last index. -/
def vid_get_emissivity_index (cur_e : Nat) : Nat :=
  match parm_e_value.findIdx? (fun v => v = cur_e) with
  | some i => i
  | none => NUM_E_PARM_VALS - 1

/-- The parameter-session state: the video task's parameter statics
(video_task.c lines 104–108) together with the live `gui_state` and the
persistent store they read and write. -/
structure parm_state where
  cur_parm_index : Nat
  cur_parm_max_index : Nat
  cur_parm_value : Nat
  prev_parm_value : Nat
  parm_entry_timeout : Nat
  gui : gui_state_t
  ps : ps_store
deriving DecidableEq

/-- The `switch (cur_parm_index)` commit, duplicated verbatim at
video_task.c lines 251–260 (long press) and 294–303 (timeout): write the
live value of the active group to persistent storage. -/
def parm_commit (s : parm_state) : ps_store :=
  if s.cur_parm_index = PARM_INDEX_EMISSIVITY then
    ps_set_parm s.ps PS_PARM_EMISSIVITY (parm_e_value.getD s.cur_parm_value 0)
  else if s.cur_parm_index = PARM_INDEX_UNITS then
    ps_set_parm s.ps PS_PARM_UNITS s.cur_parm_value
  else
    ps_set_parm s.ps PS_PARM_PALETTE_MARKER s.cur_parm_value

/-- The "get starting parameter value" switch (video_task.c lines 272–285),
value component. -/
def parm_load_value (ps : ps_store) (index : Nat) : Nat :=
  if index = PARM_INDEX_EMISSIVITY then
    vid_get_emissivity_index (ps_get_parm ps PS_PARM_EMISSIVITY)
  else if index = PARM_INDEX_UNITS then ps_get_parm ps PS_PARM_UNITS
  else ps_get_parm ps PS_PARM_PALETTE_MARKER

/-- The "get starting parameter value" switch (video_task.c lines 272–285),
max-index component. -/
def parm_load_max (index : Nat) : Nat :=
  if index = PARM_INDEX_EMISSIVITY then NUM_E_PARM_VALS - 1
  else if index = PARM_INDEX_UNITS then NUM_U_PARM_VALS - 1
  else NUM_M_PARM_VALS - 1

/-- Short press: the `notify_parm_val_change` branch (video_task.c lines
220–245).  Advance the live value with wrap-around, update the live operating
option (the emissivity group instead notifies `lep_task`, an external
effect), and restart the inactivity deadline. -/
def parm_short_press (s : parm_state) : parm_state :=
  let v := if s.cur_parm_value + 1 > s.cur_parm_max_index then 0 else s.cur_parm_value + 1
  let gui :=
    if s.cur_parm_index = PARM_INDEX_EMISSIVITY then s.gui
    else if s.cur_parm_index = PARM_INDEX_UNITS then
      { s.gui with temp_unit_C := v != 0 }
    else
      { s.gui with
        black_hot_palette := v &&& M_PARM_PALETTE_MASK == M_PARM_PALETTE_MASK,
        min_max_enable := v &&& M_PARM_MARKER_MASK == M_PARM_MARKER_MASK,
        spotmeter_enable := v &&& M_PARM_MARKER_MASK == M_PARM_MARKER_MASK }
  { s with cur_parm_value := v, gui := gui,
           parm_entry_timeout := PARM_ENTRY_TIMEOUT_MSEC }

/-- Long press: the `notify_parm_sel_change` branch (video_task.c lines
246–288).  Commit the previous group's value if it changed, advance the group
index (wrapping `NUM_PARMS → 0` with the timeout disarmed, otherwise
rearming it), load the new group's starting value and max index, and record
it as the new previous value. -/
def parm_long_press (s : parm_state) : parm_state :=
  let ps' := if s.cur_parm_value ≠ s.prev_parm_value then parm_commit s else s.ps
  let index' := if s.cur_parm_index + 1 = NUM_PARMS then 0 else s.cur_parm_index + 1
  let deadline' := if s.cur_parm_index + 1 = NUM_PARMS then 0 else PARM_ENTRY_TIMEOUT_MSEC
  { cur_parm_index := index',
    cur_parm_max_index := parm_load_max index',
    cur_parm_value := parm_load_value ps' index',
    prev_parm_value := parm_load_value ps' index',
    parm_entry_timeout := deadline',
    gui := s.gui,
    ps := ps' }

/-- Inactivity-timeout expiry: the body of the final `else if` branch
(video_task.c lines 292–311), run when the armed deadline fires.  Commit any
pending change and return to the default group with no timeout. -/
def parm_timeout_fire (s : parm_state) : parm_state :=
  let ps' := if s.cur_parm_value ≠ s.prev_parm_value then parm_commit s else s.ps
  { cur_parm_index := 0,
    cur_parm_max_index := NUM_M_PARM_VALS - 1,
    cur_parm_value := ps_get_parm ps' PS_PARM_PALETTE_MARKER,
    prev_parm_value := ps_get_parm ps' PS_PARM_PALETTE_MARKER,
    parm_entry_timeout := 0,
    gui := s.gui,
    ps := ps' }

/-- The three stimuli `_vid_eval_parm_update` can react to in one loop
iteration. -/
inductive ParmEvent
  | short
  | long
  | deadline
deriving DecidableEq

/-- One evaluation of `_vid_eval_parm_update` under a single stimulus (the
`if / else if / else if` chain handles at most one per iteration; the
timeout branch only runs when `parm_entry_timeout != 0`). -/
def parm_step : ParmEvent → parm_state → parm_state
  | ParmEvent.short, s => parm_short_press s
  | ParmEvent.long, s => parm_long_press s
  | ParmEvent.deadline, s =>
      if s.parm_entry_timeout ≠ 0 then parm_timeout_fire s else s

/-- The boot state of the parameter session (video_task.c lines 136–145);
the `gui_state` fields not initialised there are static and therefore
zero-initialised (false). -/
def parm_boot (ps : ps_store) : parm_state :=
  let v := ps_get_parm ps PS_PARM_PALETTE_MARKER
  { cur_parm_index := 0,
    cur_parm_max_index := NUM_M_PARM_VALS - 1,
    cur_parm_value := v,
    prev_parm_value := v,
    parm_entry_timeout := 0,
    gui := { agc_enabled := false,
             black_hot_palette := v &&& M_PARM_PALETTE_MASK == M_PARM_PALETTE_MASK,
             display_interp_enable := true,
             is_radiometric := false,
             min_max_enable := v &&& M_PARM_MARKER_MASK == M_PARM_MARKER_MASK,
             spotmeter_enable := v &&& M_PARM_MARKER_MASK == M_PARM_MARKER_MASK,
             temp_unit_C := ps_get_parm ps PS_PARM_UNITS != 0,
             rad_high_res := false },
    ps := ps }

/-- Parameter-session states reachable from boot under any event sequence. -/
inductive parm_reachable (ps0 : ps_store) : parm_state → Prop
  | boot : parm_reachable ps0 (parm_boot ps0)
  | step (s : parm_state) (e : ParmEvent) :
      parm_reachable ps0 s → parm_reachable ps0 (parm_step e s)

/-! ### Control & fault manager (ctrl_task.c)

The control state machine, LED blink sub-machine and button debouncer.  LED
GPIO writes (`ctrl_set_led`) are tracked in a `led_color` field; the C timers
and blink counter are signed `int`s and are modelled as `Int` (they are
decremented with `--x == 0` tests). -/

/-- `CTRL_ST_STARTUP` (ctrl_task.c). -/
def CTRL_ST_STARTUP : Nat := 0

/-- `CTRL_ST_RUN` (ctrl_task.c). -/
def CTRL_ST_RUN : Nat := 1

/-- `CTRL_ST_FAULT` (ctrl_task.c). -/
def CTRL_ST_FAULT : Nat := 2

/-- `CTRL_LED_ST_SOLID` (ctrl_task.c). -/
def CTRL_LED_ST_SOLID : Nat := 0

/-- `CTRL_LED_ST_FLT_ON` (ctrl_task.c). -/
def CTRL_LED_ST_FLT_ON : Nat := 1

/-- `CTRL_LED_ST_FLT_OFF` (ctrl_task.c). -/
def CTRL_LED_ST_FLT_OFF : Nat := 2

/-- `CTRL_LED_ST_FLT_IDLE` (ctrl_task.c). -/
def CTRL_LED_ST_FLT_IDLE : Nat := 3

/-- LED colors `CTRL_LED_OFF/RED/YEL/GRN` (ctrl_task.c). -/
def CTRL_LED_OFF : Nat := 0

/-- LED color red. -/
def CTRL_LED_RED : Nat := 1

/-- LED color yellow. -/
def CTRL_LED_YEL : Nat := 2

/-- LED color green. -/
def CTRL_LED_GRN : Nat := 3

/-- `CTRL_EVAL_MSEC` (ctrl_task.h). -/
def CTRL_EVAL_MSEC : Int := 50

/-- `CTRL_FAULT_BLINK_ON_MSEC` (ctrl_task.h). -/
def CTRL_FAULT_BLINK_ON_MSEC : Int := 200

/-- `CTRL_FAULT_BLINK_OFF_MSEC` (ctrl_task.h). -/
def CTRL_FAULT_BLINK_OFF_MSEC : Int := 300

/-- `CTRL_FAULT_IDLE_MSEC` (ctrl_task.h). -/
def CTRL_FAULT_IDLE_MSEC : Int := 2000

/-- The control task's state variables (ctrl_task.c lines 75–81) plus the
current LED color driven through `ctrl_set_led`. -/
structure ctrl_state_t where
  ctrl_state : Nat
  ctrl_pre_activity_state : Nat
  ctrl_led_state : Nat
  ctrl_led_timer : Int
  ctrl_fault_led_count : Int
  ctrl_fault_type : Int
  led_color : Nat
deriving DecidableEq

/-- `ctrl_set_led` (ctrl_task.c lines 221–244): drive the red/green GPIO
pair, i.e. set the current LED color. -/
def ctrl_set_led (color : Nat) (s : ctrl_state_t) : ctrl_state_t :=
  { s with led_color := color }

/-- `ctrl_set_led_state` (ctrl_task.c lines 339–363): record the new LED
sub-state and set its interval timer and LED color. -/
def ctrl_set_led_state (new_st : Nat) (s : ctrl_state_t) : ctrl_state_t :=
  let s := { s with ctrl_led_state := new_st }
  if new_st = CTRL_LED_ST_SOLID then s
  else if new_st = CTRL_LED_ST_FLT_ON then
    ctrl_set_led CTRL_LED_RED
      { s with ctrl_led_timer := CTRL_FAULT_BLINK_ON_MSEC / CTRL_EVAL_MSEC }
  else if new_st = CTRL_LED_ST_FLT_OFF then
    ctrl_set_led CTRL_LED_OFF
      { s with ctrl_led_timer := CTRL_FAULT_BLINK_OFF_MSEC / CTRL_EVAL_MSEC }
  else if new_st = CTRL_LED_ST_FLT_IDLE then
    ctrl_set_led CTRL_LED_OFF
      { s with ctrl_led_timer := CTRL_FAULT_IDLE_MSEC / CTRL_EVAL_MSEC }
  else s

/-- `ctrl_set_state` (ctrl_task.c lines 313–336): record the new control
state; Startup and Run show a solid LED; entering Fault with a nonzero fault
code loads the blink counter from the fault code and starts a blink burst. -/
def ctrl_set_state (new_st : Nat) (s : ctrl_state_t) : ctrl_state_t :=
  let s := { s with ctrl_state := new_st }
  if new_st = CTRL_ST_STARTUP then
    ctrl_set_led_state CTRL_LED_ST_SOLID (ctrl_set_led CTRL_LED_YEL s)
  else if new_st = CTRL_ST_RUN then
    ctrl_set_led_state CTRL_LED_ST_SOLID (ctrl_set_led CTRL_LED_GRN s)
  else if new_st = CTRL_ST_FAULT then
    if s.ctrl_fault_type ≠ 0 then
      ctrl_set_led_state CTRL_LED_ST_FLT_ON
        { s with ctrl_fault_led_count := s.ctrl_fault_type }
    else s
  else s

/-- One tick of `ctrl_eval_led_sm` (ctrl_task.c lines 280–310). -/
def ctrl_eval_led_sm (s : ctrl_state_t) : ctrl_state_t :=
  if s.ctrl_led_state = CTRL_LED_ST_SOLID then s
  else if s.ctrl_led_state = CTRL_LED_ST_FLT_ON then
    let s := { s with ctrl_led_timer := s.ctrl_led_timer - 1 }
    if s.ctrl_led_timer = 0 then ctrl_set_led_state CTRL_LED_ST_FLT_OFF s else s
  else if s.ctrl_led_state = CTRL_LED_ST_FLT_OFF then
    let s := { s with ctrl_led_timer := s.ctrl_led_timer - 1 }
    if s.ctrl_led_timer = 0 then
      let s := { s with ctrl_fault_led_count := s.ctrl_fault_led_count - 1 }
      if s.ctrl_fault_led_count = 0 then ctrl_set_led_state CTRL_LED_ST_FLT_IDLE s
      else ctrl_set_led_state CTRL_LED_ST_FLT_ON s
    else s
  else if s.ctrl_led_state = CTRL_LED_ST_FLT_IDLE then
    let s := { s with ctrl_led_timer := s.ctrl_led_timer - 1 }
    if s.ctrl_led_timer = 0 then
      ctrl_set_led_state CTRL_LED_ST_FLT_ON
        { s with ctrl_fault_led_count := s.ctrl_fault_type }
    else s
  else s

/-- `n` ticks of the LED state machine. -/
def ctrl_led_iter : Nat → ctrl_state_t → ctrl_state_t
  | 0, s => s
  | n+1, s => ctrl_eval_led_sm (ctrl_led_iter n s)

/-- The asynchronous stimuli of the control state machine: a fault report
(`ctrl_set_fault_type` with `f != CTRL_FAULT_NONE`), a fault clear
(`ctrl_set_fault_type(CTRL_FAULT_NONE)`), and the startup-complete
notification. -/
inductive CtrlEvent
  | fault_report (f : Int)
  | fault_clear
  | startup_done
deriving DecidableEq

/-- One control-state transition: the relevant branch of
`ctrl_set_fault_type` (ctrl_task.c lines 123–137) followed by the matching
branch of `ctrl_handle_notifications` (ctrl_task.c lines 366–387) when its
notification is processed.  A fault report stores the fault code, remembers
the pre-fault state and enters Fault; a fault clear zeroes the fault code and
returns to the remembered state; startup-complete moves to Run only when not
in Fault. -/
def ctrl_notify_step : CtrlEvent → ctrl_state_t → ctrl_state_t
  | CtrlEvent.fault_report f, s =>
      let s := { s with ctrl_fault_type := f,
                        ctrl_pre_activity_state := s.ctrl_state }
      ctrl_set_state CTRL_ST_FAULT s
  | CtrlEvent.fault_clear, s =>
      let s := { s with ctrl_fault_type := 0 }
      ctrl_set_state s.ctrl_pre_activity_state s
  | CtrlEvent.startup_done, s =>
      if s.ctrl_state ≠ CTRL_ST_FAULT then ctrl_set_state CTRL_ST_RUN s else s

/-! ### Button debouncer (ctrl_task.c) -/

/-- The debouncer's static state (ctrl_task.c lines 177–179); `btn_timer`
is a C `int`. -/
structure btn_state_t where
  prev_btn : Bool
  btn_down : Bool
  btn_timer : Int
deriving DecidableEq

/-- `ctrl_debounce_button` (ctrl_task.c lines 174–218) for one evaluation
tick with sampled (already active-low-converted) button level `cur_btn`:
returns the new static state and the `(short_p, long_p)` outputs.  The two
stable-transition `if`s run in sequence (their conditions are mutually
exclusive); the long-press countdown then runs against the updated
`btn_down`, and the short press is tested against the timer after any
decrement. -/
def ctrl_debounce_button (cur_btn : Bool) (s : btn_state_t) :
    btn_state_t × Bool × Bool :=
  let pressed := cur_btn && s.prev_btn && !s.btn_down
  let btn_down1 := if pressed then true else s.btn_down
  let btn_timer1 :=
    if pressed then (CTRL_BTN_LONG_PRESS_MSEC : Int) / CTRL_EVAL_MSEC else s.btn_timer
  let btn_released := !cur_btn && !s.prev_btn && btn_down1
  let btn_down2 := if btn_released then false else btn_down1
  let long_p := btn_down2 && (btn_timer1 != 0) && (btn_timer1 - 1 == 0)
  let btn_timer2 :=
    if btn_down2 && (btn_timer1 != 0) then btn_timer1 - 1 else btn_timer1
  let short_p := btn_released && (btn_timer2 != 0)
  (⟨cur_btn, btn_down2, btn_timer2⟩, short_p, long_p)

/-- C4: in the acquisition Run state, each failed segment attempt increments
the miss counter (with no pause and no fault below 36); exactly 36
consecutive misses trigger one resynchronisation pause and increment the
failure counter; a successful attempt resets both counters; and when the
failure counter has reached the configured limit, it is cleared, the
synchronisation fault is reported, and the state moves to `RE_INIT` if no
prior reset has been attempted, otherwise to `ERROR` with the long backoff
timer armed. -/
theorem lep_run_escalation (limit retry_secs : Nat) (s : lep_state_t) :
    (s.vsync_count + 1 ≠ 36 →
      (lep_run_step limit retry_secs false s).1
        = { s with vsync_count := s.vsync_count + 1 } ∧
      (lep_run_step limit retry_secs false s).2
        = { fault_set := none, resync_pause := false, notify_slot := none }) ∧
    (s.vsync_count = 35 → s.sync_fail_count ≠ limit →
      (lep_run_step limit retry_secs false s).1
        = { s with vsync_count := 0, sync_fail_count := s.sync_fail_count + 1 } ∧
      (lep_run_step limit retry_secs false s).2
        = { fault_set := none, resync_pause := true, notify_slot := none }) ∧
    ((lep_run_step limit retry_secs true s).1.vsync_count = 0 ∧
     (lep_run_step limit retry_secs true s).1.sync_fail_count = 0 ∧
     (lep_run_step limit retry_secs true s).1.reset_fail_count = 0 ∧
     (lep_run_step limit retry_secs true s).1.task_state = s.task_state) ∧
    (s.vsync_count = 35 → s.sync_fail_count = limit →
      (lep_run_step limit retry_secs false s).2.fault_set
        = some CTRL_FAULT_LEP_SYNC ∧
      (lep_run_step limit retry_secs false s).2.resync_pause = true ∧
      (lep_run_step limit retry_secs false s).1.sync_fail_count = 0 ∧
      (s.reset_fail_count = 0 →
        (lep_run_step limit retry_secs false s).1.task_state
          = LepTaskMode.RE_INIT) ∧
      (s.reset_fail_count ≠ 0 →
        (lep_run_step limit retry_secs false s).1.task_state
          = LepTaskMode.ERROR ∧
        (lep_run_step limit retry_secs false s).1.reset_fail_count
          = retry_secs)) := by
  refine ⟨?_, ?_, ?_, ?_⟩
  · intro h
    simp [lep_run_step, h]
  · intro h1 h2
    simp [lep_run_step, h1, h2]
  · simp [lep_run_step]
  · intro h1 h2
    refine ⟨?_, ?_, ?_, ?_, ?_⟩ <;>
      (simp only [lep_run_step, h1, h2]
       norm_num
       try split <;> simp_all)

/-- Witness for `lep_run_escalation` at a concrete state: with limit 1,
retry 60, a state at 35 misses, failure counter at the limit and a prior
reset recorded, the 36th miss reports the sync fault and escalates to ERROR
with the backoff armed. -/
theorem lep_run_escalation_witness :
    (lep_run_step 1 60 false
        ⟨LepTaskMode.RUN, 0, 35, 1, 1⟩).2.fault_set = some CTRL_FAULT_LEP_SYNC ∧
    (lep_run_step 1 60 false
        ⟨LepTaskMode.RUN, 0, 35, 1, 1⟩).1.task_state = LepTaskMode.ERROR ∧
    (lep_run_step 1 60 false
        ⟨LepTaskMode.RUN, 0, 35, 1, 1⟩).1.reset_fail_count = 60 := by
  have h := (lep_run_escalation 1 60 ⟨LepTaskMode.RUN, 0, 35, 1, 1⟩).2.2.2
    (by decide) (by decide)
  exact ⟨h.1, (h.2.2.2.2 (by decide)).1, (h.2.2.2.2 (by decide)).2⟩

/-- C5: for each raw-slot notification the video task first displays the
previously rendered output of the OTHER render slot and only then renders
the notified slot (notification 1 = raw slot 0, notification 2 = raw slot
1; when both are pending, slot 0's notification is handled first); and on
every successful frame the acquisition side notifies the slot it just wrote
and alternates the slot index. -/
theorem vid_display_before_render :
    (vid_loop_actions true false
      = [VidAction.wait_frame, VidAction.display 1, VidAction.render 0]) ∧
    (vid_loop_actions false true
      = [VidAction.wait_frame, VidAction.display 0, VidAction.render 1]) ∧
    (vid_loop_actions true true
      = [VidAction.wait_frame, VidAction.display 1, VidAction.render 0,
         VidAction.wait_frame, VidAction.display 0, VidAction.render 1]) ∧
    (∀ n2, (vid_loop_actions true n2).indexOf (VidAction.display 1)
         < (vid_loop_actions true n2).indexOf (VidAction.render 0)) ∧
    (∀ n1, (vid_loop_actions n1 true).indexOf (VidAction.display 0)
         < (vid_loop_actions n1 true).indexOf (VidAction.render 1)) ∧
    (∀ limit retry_secs : Nat, ∀ s : lep_state_t,
      (lep_run_step limit retry_secs true s).2.notify_slot
        = some s.vid_buf_index ∧
      (lep_run_step limit retry_secs true s).1.vid_buf_index
        = (if s.vid_buf_index = 0 then 1 else 0)) := by
  refine ⟨rfl, rfl, rfl, ?_, ?_, ?_⟩
  · intro n2; cases n2 <;> decide
  · intro n1; cases n1 <;> decide
  · intro limit retry_secs s
    simp [lep_run_step]

/-- C6: from any parameter-session state in a non-default group with an
armed inactivity deadline, firing the inactivity timeout yields exactly the
state (session fields, live options and persisted settings) reached by
delivering enough long-press events to advance the session to the end of the
cycle (two from the emissivity group, one from the units group); in that
state any pending change has been committed, the active index is 0, and no
timeout is armed. -/
theorem parm_timeout_equiv_long_presses (s : parm_state)
    (h1 : s.cur_parm_index = 1 ∨ s.cur_parm_index = 2)
    (h2 : s.parm_entry_timeout ≠ 0) :
    parm_step ParmEvent.deadline s
      = (if s.cur_parm_index = 1 then parm_long_press (parm_long_press s)
         else parm_long_press s) ∧
    (parm_step ParmEvent.deadline s).cur_parm_index = 0 ∧
    (parm_step ParmEvent.deadline s).parm_entry_timeout = 0 ∧
    (s.cur_parm_value ≠ s.prev_parm_value →
      (parm_step ParmEvent.deadline s).ps = parm_commit s) := by
  obtain ⟨i, mi, v, p, t, gui, ps⟩ := s
  simp only [ne_eq] at h2
  rcases h1 with h | h <;> subst h <;>
    by_cases hvp : v = p <;>
      simp [parm_step, h2, parm_timeout_fire, parm_long_press, parm_commit,
        parm_load_value, parm_load_max, ps_set_parm, ps_get_parm,
        PARM_INDEX_EMISSIVITY, PARM_INDEX_UNITS, PARM_INDEX_MARKER,
        PS_PARM_PALETTE_MARKER, PS_PARM_EMISSIVITY, PS_PARM_UNITS,
        NUM_PARMS, NUM_M_PARM_VALS, NUM_E_PARM_VALS, NUM_U_PARM_VALS,
        PARM_ENTRY_TIMEOUT_MSEC, CTRL_BTN_LONG_PRESS_MSEC, hvp]

/-- Witness for `parm_timeout_equiv_long_presses`: a concrete emissivity-group
state with a pending change. -/
theorem parm_timeout_equiv_long_presses_witness :
    parm_step ParmEvent.deadline
        ⟨1, 22, 3, 2, 10000, (parm_boot ⟨0, 97, 0⟩).gui, ⟨0, 97, 0⟩⟩
      = (if (1 : Nat) = 1 then
          parm_long_press (parm_long_press
            ⟨1, 22, 3, 2, 10000, (parm_boot ⟨0, 97, 0⟩).gui, ⟨0, 97, 0⟩⟩)
         else parm_long_press
            ⟨1, 22, 3, 2, 10000, (parm_boot ⟨0, 97, 0⟩).gui, ⟨0, 97, 0⟩⟩) :=
  (parm_timeout_equiv_long_presses
    ⟨1, 22, 3, 2, 10000, (parm_boot ⟨0, 97, 0⟩).gui, ⟨0, 97, 0⟩⟩
    (Or.inl rfl) (by decide)).1

/-- C7 fails on the code: a short press delivered in the default group
(reachable directly from boot, here with the documented default settings
palette/marker = 0, emissivity = 97, units = 0) leaves the active index at 0
with the inactivity timeout armed — the code arms the deadline on every
value-change notification, including in group 0. -/
theorem parm_group0_timeout_armed :
    parm_reachable ⟨0, 97, 0⟩ (parm_step ParmEvent.short (parm_boot ⟨0, 97, 0⟩)) ∧
    (parm_step ParmEvent.short (parm_boot ⟨0, 97, 0⟩)).cur_parm_index = 0 ∧
    (parm_step ParmEvent.short (parm_boot ⟨0, 97, 0⟩)).parm_entry_timeout ≠ 0 :=
  ⟨parm_reachable.step _ ParmEvent.short parm_reachable.boot, by decide, by decide⟩

/-- C7 (amended): the default group is timeout-free whenever it is entered:
at boot, when the inactivity timeout fires, and on the long-press wrap from
the last group — in particular after exactly 3 long presses from the default
group the session is back in group 0 with no active timeout.  A short press,
however, (re)arms the inactivity deadline in every group, including group 0
(the live palette/marker change it makes there is later committed by the
timeout). -/
theorem parm_group0_entry_states (ps0 : ps_store) (s : parm_state) :
    ((parm_boot ps0).cur_parm_index = 0 ∧
     (parm_boot ps0).parm_entry_timeout = 0) ∧
    (s.parm_entry_timeout ≠ 0 →
      (parm_step ParmEvent.deadline s).cur_parm_index = 0 ∧
      (parm_step ParmEvent.deadline s).parm_entry_timeout = 0) ∧
    (s.cur_parm_index = 2 →
      (parm_step ParmEvent.long s).cur_parm_index = 0 ∧
      (parm_step ParmEvent.long s).parm_entry_timeout = 0) ∧
    (s.cur_parm_index = 0 →
      (parm_step ParmEvent.long (parm_step ParmEvent.long
          (parm_step ParmEvent.long s))).cur_parm_index = 0 ∧
      (parm_step ParmEvent.long (parm_step ParmEvent.long
          (parm_step ParmEvent.long s))).parm_entry_timeout = 0) ∧
    (parm_step ParmEvent.short s).parm_entry_timeout
      = PARM_ENTRY_TIMEOUT_MSEC := by
  refine ⟨⟨rfl, rfl⟩, ?_, ?_, ?_, ?_⟩
  · intro h
    simp only [ne_eq] at h
    simp [parm_step, h, parm_timeout_fire]
  · intro h
    simp [parm_step, parm_long_press, h, NUM_PARMS]
  · intro h
    simp [parm_step, parm_long_press, h, NUM_PARMS, parm_load_max, parm_load_value,
      PARM_INDEX_EMISSIVITY, PARM_INDEX_UNITS]
  · simp [parm_step, parm_short_press]

/-- Witness for `parm_group0_entry_states` at a concrete state: the units
group with an armed deadline. -/
theorem parm_group0_entry_states_witness :
    (parm_step ParmEvent.long
        ⟨2, 1, 1, 0, 10000, (parm_boot ⟨0, 97, 0⟩).gui, ⟨0, 97, 0⟩⟩).cur_parm_index
      = 0 :=
  ((parm_group0_entry_states ⟨0, 97, 0⟩
      ⟨2, 1, 1, 0, 10000, (parm_boot ⟨0, 97, 0⟩).gui, ⟨0, 97, 0⟩⟩).2.2.1 rfl).1

theorem ctrl_set_state_state (n : Nat) (s : ctrl_state_t) :
    (ctrl_set_state n s).ctrl_state = n := by
  simp only [ctrl_set_state, ctrl_set_led_state, ctrl_set_led]
  split_ifs <;> rfl

theorem ctrl_set_state_pre (n : Nat) (s : ctrl_state_t) :
    (ctrl_set_state n s).ctrl_pre_activity_state = s.ctrl_pre_activity_state := by
  simp only [ctrl_set_state, ctrl_set_led_state, ctrl_set_led]
  split_ifs <;> rfl

/-- C8: if a fault is reported while the control state is `s` (Startup or
Run) and a fault-clear is later delivered with no intervening fault report
(any number of startup-complete signals may intervene), the state stays in
Fault throughout, the clear returns the control state to exactly `s`, and a
startup-complete received in the Fault state never moves the state to Run. -/
theorem ctrl_fault_save_restore (s : ctrl_state_t)
    (hs : s.ctrl_state = CTRL_ST_STARTUP ∨ s.ctrl_state = CTRL_ST_RUN)
    (f : Int) (hf : f ≠ 0) (es : List CtrlEvent)
    (hes : ∀ e ∈ es, e = CtrlEvent.startup_done) :
    (es.foldl (fun t e => ctrl_notify_step e t)
        (ctrl_notify_step (CtrlEvent.fault_report f) s)).ctrl_state
      = CTRL_ST_FAULT ∧
    (ctrl_notify_step CtrlEvent.fault_clear
        (es.foldl (fun t e => ctrl_notify_step e t)
          (ctrl_notify_step (CtrlEvent.fault_report f) s))).ctrl_state
      = s.ctrl_state ∧
    (∀ t : ctrl_state_t, t.ctrl_state = CTRL_ST_FAULT →
      (ctrl_notify_step CtrlEvent.startup_done t).ctrl_state
        = CTRL_ST_FAULT) := by
  have hstartup : ∀ t : ctrl_state_t, t.ctrl_state = CTRL_ST_FAULT →
      ctrl_notify_step CtrlEvent.startup_done t = t := by
    intro t ht
    simp [ctrl_notify_step, ht]
  have hfold : ∀ (l : List CtrlEvent), (∀ e ∈ l, e = CtrlEvent.startup_done) →
      ∀ t : ctrl_state_t, t.ctrl_state = CTRL_ST_FAULT →
      l.foldl (fun t e => ctrl_notify_step e t) t = t := by
    intro l
    induction l with
    | nil => intro _ t _; rfl
    | cons e tl ih =>
        intro hl t ht
        have he : e = CtrlEvent.startup_done := hl e (List.mem_cons_self e tl)
        subst he
        rw [List.foldl_cons, hstartup t ht]
        exact ih (fun e h => hl e (List.mem_cons_of_mem _ h)) t ht
  have h1 : (ctrl_notify_step (CtrlEvent.fault_report f) s).ctrl_state
      = CTRL_ST_FAULT := by
    simp only [ctrl_notify_step]
    exact ctrl_set_state_state _ _
  have h2 : (ctrl_notify_step (CtrlEvent.fault_report f) s).ctrl_pre_activity_state
      = s.ctrl_state := by
    simp only [ctrl_notify_step]
    rw [ctrl_set_state_pre]
  rw [hfold es hes _ h1]
  refine ⟨h1, ?_, fun t ht => by rw [hstartup t ht]; exact ht⟩
  show (ctrl_set_state _ _).ctrl_state = s.ctrl_state
  rw [ctrl_set_state_state]
  exact h2

/-- Witness for `ctrl_fault_save_restore`: a fault reported in Run, one
intervening startup-complete, then a clear, lands back in Run. -/
theorem ctrl_fault_save_restore_witness :
    (ctrl_notify_step CtrlEvent.fault_clear
        ([CtrlEvent.startup_done].foldl (fun t e => ctrl_notify_step e t)
          (ctrl_notify_step (CtrlEvent.fault_report 6)
            ⟨CTRL_ST_RUN, 0, 0, 0, 0, 0, 3⟩))).ctrl_state
      = (⟨CTRL_ST_RUN, 0, 0, 0, 0, 0, 3⟩ : ctrl_state_t).ctrl_state :=
  (ctrl_fault_save_restore ⟨CTRL_ST_RUN, 0, 0, 0, 0, 0, 3⟩ (Or.inr rfl) 6
    (by decide) [CtrlEvent.startup_done] (by decide)).2.1

/-- C10: the button debouncer never reports a short press and a long press
in the same evaluation tick (for any state and sampled level); if the
long-press countdown has reached zero while the button was held, the release
that follows produces no event at all; and a release on the very tick the
countdown would have expired produces only a short press. -/
theorem debounce_exclusive (cur : Bool) (s : btn_state_t) :
    (¬((ctrl_debounce_button cur s).2.1 = true ∧
       (ctrl_debounce_button cur s).2.2 = true)) ∧
    (s.btn_down = true → s.prev_btn = false → cur = false → s.btn_timer = 0 →
      (ctrl_debounce_button cur s).2.1 = false ∧
      (ctrl_debounce_button cur s).2.2 = false) ∧
    (s.btn_down = true → s.prev_btn = false → cur = false → s.btn_timer = 1 →
      (ctrl_debounce_button cur s).2.1 = true ∧
      (ctrl_debounce_button cur s).2.2 = false) := by
  obtain ⟨p, d, t⟩ := s
  refine ⟨?_, ?_, ?_⟩
  · cases cur <;> cases p <;> cases d <;>
      simp [ctrl_debounce_button, CTRL_BTN_LONG_PRESS_MSEC, CTRL_EVAL_MSEC]
  · intro hd hp hc ht
    subst hd; subst hp; subst hc; subst ht
    simp [ctrl_debounce_button]
  · intro hd hp hc ht
    subst hd; subst hp; subst hc; subst ht
    simp [ctrl_debounce_button]

/-- Witness for `debounce_exclusive`: a release one tick before countdown
expiry yields a short press and no long press. -/
theorem debounce_exclusive_witness :
    (ctrl_debounce_button false ⟨false, true, 1⟩).2.1 = true ∧
    (ctrl_debounce_button false ⟨false, true, 1⟩).2.2 = false :=
  (debounce_exclusive false ⟨false, true, 1⟩).2.2 rfl rfl rfl rfl

/-- The LED-machine state `n` ticks after the start of a fault blink burst
with repeat count `f` (for the base state `s`): `f` phases of 4 BlinkOn ticks
plus 6 BlinkOff ticks, then 40 Idle ticks, then the restart state with the
repeat count reloaded from the fault code. -/
def ctrl_burst_state (s : ctrl_state_t) (f : Nat) (n : Nat) : ctrl_state_t :=
  if n < 10*f then
    if n % 10 < 4 then
      { s with ctrl_led_state := CTRL_LED_ST_FLT_ON,
               ctrl_led_timer := 4 - (n % 10 : Nat),
               ctrl_fault_led_count := (f : Int) - (n / 10 : Nat),
               led_color := CTRL_LED_RED }
    else
      { s with ctrl_led_state := CTRL_LED_ST_FLT_OFF,
               ctrl_led_timer := 6 - ((n % 10 : Nat) - 4 : Int),
               ctrl_fault_led_count := (f : Int) - (n / 10 : Nat),
               led_color := CTRL_LED_OFF }
  else if n < 10*f + 40 then
    { s with ctrl_led_state := CTRL_LED_ST_FLT_IDLE,
             ctrl_led_timer := 40 - ((n : Int) - (10*f : Nat)),
             ctrl_fault_led_count := 0,
             led_color := CTRL_LED_OFF }
  else
    { s with ctrl_led_state := CTRL_LED_ST_FLT_ON,
             ctrl_led_timer := 4,
             ctrl_fault_led_count := s.ctrl_fault_type,
             led_color := CTRL_LED_RED }

theorem ctrl_burst_on (s : ctrl_state_t) (f n : Nat) (h1 : n < 10*f)
    (h2 : n % 10 < 4) :
    ctrl_burst_state s f n
      = { s with ctrl_led_state := CTRL_LED_ST_FLT_ON,
                 ctrl_led_timer := 4 - (n % 10 : Nat),
                 ctrl_fault_led_count := (f : Int) - (n / 10 : Nat),
                 led_color := CTRL_LED_RED } := by
  simp [ctrl_burst_state, h1, h2]

theorem ctrl_burst_off (s : ctrl_state_t) (f n : Nat) (h1 : n < 10*f)
    (h2 : ¬(n % 10 < 4)) :
    ctrl_burst_state s f n
      = { s with ctrl_led_state := CTRL_LED_ST_FLT_OFF,
                 ctrl_led_timer := 6 - ((n % 10 : Nat) - 4 : Int),
                 ctrl_fault_led_count := (f : Int) - (n / 10 : Nat),
                 led_color := CTRL_LED_OFF } := by
  simp [ctrl_burst_state, h1, h2]

theorem ctrl_burst_idle (s : ctrl_state_t) (f n : Nat) (h1 : ¬(n < 10*f))
    (h2 : n < 10*f + 40) :
    ctrl_burst_state s f n
      = { s with ctrl_led_state := CTRL_LED_ST_FLT_IDLE,
                 ctrl_led_timer := 40 - ((n : Int) - (10*f : Nat)),
                 ctrl_fault_led_count := 0,
                 led_color := CTRL_LED_OFF } := by
  simp [ctrl_burst_state, h1, h2]

theorem ctrl_burst_reload (s : ctrl_state_t) (f n : Nat)
    (h2 : ¬(n < 10*f + 40)) :
    ctrl_burst_state s f n
      = { s with ctrl_led_state := CTRL_LED_ST_FLT_ON,
                 ctrl_led_timer := 4,
                 ctrl_fault_led_count := s.ctrl_fault_type,
                 led_color := CTRL_LED_RED } := by
  have h1 : ¬(n < 10*f) := by omega
  simp [ctrl_burst_state, h1, h2]

theorem ctrl_set_led_state_flt_on (s : ctrl_state_t) :
    ctrl_set_led_state CTRL_LED_ST_FLT_ON s
      = { s with ctrl_led_state := CTRL_LED_ST_FLT_ON,
                 ctrl_led_timer := 4, led_color := CTRL_LED_RED } := by
  simp [ctrl_set_led_state, ctrl_set_led, CTRL_LED_ST_SOLID,
    CTRL_LED_ST_FLT_ON, CTRL_FAULT_BLINK_ON_MSEC, CTRL_EVAL_MSEC]

theorem ctrl_set_led_state_flt_off (s : ctrl_state_t) :
    ctrl_set_led_state CTRL_LED_ST_FLT_OFF s
      = { s with ctrl_led_state := CTRL_LED_ST_FLT_OFF,
                 ctrl_led_timer := 6, led_color := CTRL_LED_OFF } := by
  simp [ctrl_set_led_state, ctrl_set_led, CTRL_LED_ST_SOLID,
    CTRL_LED_ST_FLT_ON, CTRL_LED_ST_FLT_OFF, CTRL_FAULT_BLINK_OFF_MSEC,
    CTRL_EVAL_MSEC]

theorem ctrl_set_led_state_flt_idle (s : ctrl_state_t) :
    ctrl_set_led_state CTRL_LED_ST_FLT_IDLE s
      = { s with ctrl_led_state := CTRL_LED_ST_FLT_IDLE,
                 ctrl_led_timer := 40, led_color := CTRL_LED_OFF } := by
  simp [ctrl_set_led_state, ctrl_set_led, CTRL_LED_ST_SOLID,
    CTRL_LED_ST_FLT_ON, CTRL_LED_ST_FLT_OFF, CTRL_LED_ST_FLT_IDLE,
    CTRL_FAULT_IDLE_MSEC, CTRL_EVAL_MSEC]

theorem ctrl_eval_led_sm_flt_on (s : ctrl_state_t)
    (h : s.ctrl_led_state = CTRL_LED_ST_FLT_ON) :
    ctrl_eval_led_sm s
      = if s.ctrl_led_timer - 1 = 0
        then ctrl_set_led_state CTRL_LED_ST_FLT_OFF
               { s with ctrl_led_timer := s.ctrl_led_timer - 1 }
        else { s with ctrl_led_timer := s.ctrl_led_timer - 1 } := by
  simp [ctrl_eval_led_sm, h, CTRL_LED_ST_SOLID, CTRL_LED_ST_FLT_ON]

theorem ctrl_eval_led_sm_flt_off (s : ctrl_state_t)
    (h : s.ctrl_led_state = CTRL_LED_ST_FLT_OFF) :
    ctrl_eval_led_sm s
      = if s.ctrl_led_timer - 1 = 0 then
          (if s.ctrl_fault_led_count - 1 = 0 then
            ctrl_set_led_state CTRL_LED_ST_FLT_IDLE
              { s with ctrl_led_timer := s.ctrl_led_timer - 1,
                       ctrl_fault_led_count := s.ctrl_fault_led_count - 1 }
          else
            ctrl_set_led_state CTRL_LED_ST_FLT_ON
              { s with ctrl_led_timer := s.ctrl_led_timer - 1,
                       ctrl_fault_led_count := s.ctrl_fault_led_count - 1 })
        else { s with ctrl_led_timer := s.ctrl_led_timer - 1 } := by
  simp [ctrl_eval_led_sm, h, CTRL_LED_ST_SOLID, CTRL_LED_ST_FLT_ON,
    CTRL_LED_ST_FLT_OFF]

theorem ctrl_eval_led_sm_flt_idle (s : ctrl_state_t)
    (h : s.ctrl_led_state = CTRL_LED_ST_FLT_IDLE) :
    ctrl_eval_led_sm s
      = if s.ctrl_led_timer - 1 = 0 then
          ctrl_set_led_state CTRL_LED_ST_FLT_ON
            { s with ctrl_led_timer := s.ctrl_led_timer - 1,
                     ctrl_fault_led_count := s.ctrl_fault_type }
        else { s with ctrl_led_timer := s.ctrl_led_timer - 1 } := by
  simp [ctrl_eval_led_sm, h, CTRL_LED_ST_SOLID, CTRL_LED_ST_FLT_ON,
    CTRL_LED_ST_FLT_OFF, CTRL_LED_ST_FLT_IDLE]

theorem ctrl_burst_step (s : ctrl_state_t) (f : Nat) (n : Nat)
    (hn : n < 10*f + 40) :
    ctrl_eval_led_sm (ctrl_burst_state s f n) = ctrl_burst_state s f (n+1) := by
  by_cases h1 : n < 10*f
  · have h10 : n % 10 < 10 := Nat.mod_lt _ (by norm_num)
    by_cases h2 : n % 10 < 4
    · rw [ctrl_burst_on s f n h1 h2, ctrl_eval_led_sm_flt_on _ rfl]
      dsimp only
      by_cases h3 : n % 10 < 3
      · rw [if_neg (by omega), ctrl_burst_on s f (n+1) (by omega) (by omega)]
        simp only [ctrl_state_t.mk.injEq, true_and, and_true]
        omega
      · rw [if_pos (by omega), ctrl_set_led_state_flt_off,
            ctrl_burst_off s f (n+1) (by omega) (by omega)]
        simp only [ctrl_state_t.mk.injEq, true_and, and_true]
        omega
    · rw [ctrl_burst_off s f n h1 h2, ctrl_eval_led_sm_flt_off _ rfl]
      dsimp only
      by_cases h3 : n % 10 < 9
      · rw [if_neg (by omega), ctrl_burst_off s f (n+1) (by omega) (by omega)]
        simp only [ctrl_state_t.mk.injEq, true_and, and_true]
        omega
      · by_cases h4 : n / 10 + 1 < f
        · rw [if_pos (by omega), if_neg (by omega), ctrl_set_led_state_flt_on,
              ctrl_burst_on s f (n+1) (by omega) (by omega)]
          simp only [ctrl_state_t.mk.injEq, true_and, and_true]
          omega
        · rw [if_pos (by omega), if_pos (by omega), ctrl_set_led_state_flt_idle,
              ctrl_burst_idle s f (n+1) (by omega) (by omega)]
          simp only [ctrl_state_t.mk.injEq, true_and, and_true]
          omega
  · rw [ctrl_burst_idle s f n h1 hn, ctrl_eval_led_sm_flt_idle _ rfl]
    dsimp only
    by_cases h2 : n + 1 < 10*f + 40
    · rw [if_neg (by omega), ctrl_burst_idle s f (n+1) (by omega) h2]
      simp only [ctrl_state_t.mk.injEq, true_and, and_true]
      omega
    · rw [if_pos (by omega), ctrl_set_led_state_flt_on,
          ctrl_burst_reload s f (n+1) h2]

theorem ctrl_burst_iter (s : ctrl_state_t) (f : Nat)
    (h0 : ctrl_burst_state s f 0 = s) :
    ∀ n, n ≤ 10*f + 40 → ctrl_led_iter n s = ctrl_burst_state s f n := by
  intro n
  induction n with
  | zero => intro _; exact h0.symm
  | succ m ih =>
      intro h
      show ctrl_eval_led_sm (ctrl_led_iter m s) = _
      rw [ih (by omega), ctrl_burst_step s f m (by omega)]

/-- C9: while the control state is in Fault with active fault code `f > 0`,
the LED sub-state machine produces blink bursts of exactly `f` on-phases:
entering the Fault state loads the repeat counter from the fault code and
starts BlinkOn; the machine then alternates 4 red BlinkOn ticks and 6 dark
BlinkOff ticks per phase for exactly `f` phases, enters Idle for 40 ticks,
and on leaving Idle reloads the repeat count from the active fault code and
restarts — so the fault code is observable as the LED blink count. -/
theorem ctrl_fault_blink_count (f : Nat) (hf : 1 ≤ f) (s : ctrl_state_t)
    (hls : s.ctrl_led_state = CTRL_LED_ST_FLT_ON)
    (ht : s.ctrl_led_timer = 4)
    (hcnt : s.ctrl_fault_led_count = (f : Int))
    (hft : s.ctrl_fault_type = (f : Int))
    (hcol : s.led_color = CTRL_LED_RED) :
    (∀ t : ctrl_state_t, t.ctrl_fault_type = (f : Int) →
      (ctrl_set_state CTRL_ST_FAULT t).ctrl_led_state = CTRL_LED_ST_FLT_ON ∧
      (ctrl_set_state CTRL_ST_FAULT t).ctrl_led_timer = 4 ∧
      (ctrl_set_state CTRL_ST_FAULT t).ctrl_fault_led_count = (f : Int) ∧
      (ctrl_set_state CTRL_ST_FAULT t).led_color = CTRL_LED_RED) ∧
    (∀ k j, k < f → j < 4 →
      (ctrl_led_iter (10*k + j) s).ctrl_led_state = CTRL_LED_ST_FLT_ON ∧
      (ctrl_led_iter (10*k + j) s).led_color = CTRL_LED_RED) ∧
    (∀ k j, k < f → 4 ≤ j → j < 10 →
      (ctrl_led_iter (10*k + j) s).ctrl_led_state = CTRL_LED_ST_FLT_OFF ∧
      (ctrl_led_iter (10*k + j) s).led_color = CTRL_LED_OFF) ∧
    (∀ m, m < 40 →
      (ctrl_led_iter (10*f + m) s).ctrl_led_state = CTRL_LED_ST_FLT_IDLE) ∧
    ((ctrl_led_iter (10*f + 40) s).ctrl_led_state = CTRL_LED_ST_FLT_ON ∧
     (ctrl_led_iter (10*f + 40) s).ctrl_led_timer = 4 ∧
     (ctrl_led_iter (10*f + 40) s).ctrl_fault_led_count = (f : Int) ∧
     (ctrl_led_iter (10*f + 40) s).led_color = CTRL_LED_RED) := by
  have h0 : ctrl_burst_state s f 0 = s := by
    rw [ctrl_burst_on s f 0 (by omega) (by omega)]
    obtain ⟨c1, c2, c3, c4, c5, c6, c7⟩ := s
    simp only at hls ht hcnt hft hcol
    subst hls; subst ht; subst hcnt; subst hft; subst hcol
    simp only [ctrl_state_t.mk.injEq, true_and, and_true]
    omega
  have hiter := ctrl_burst_iter s f h0
  refine ⟨?_, ?_, ?_, ?_, ?_⟩
  · intro t htf
    have hne : t.ctrl_fault_type ≠ 0 := by rw [htf]; omega
    rw [show ctrl_set_state CTRL_ST_FAULT t
        = ctrl_set_led_state CTRL_LED_ST_FLT_ON
            { t with ctrl_state := CTRL_ST_FAULT,
                     ctrl_fault_led_count := t.ctrl_fault_type }
      from by simp [ctrl_set_state, CTRL_ST_STARTUP, CTRL_ST_RUN,
        CTRL_ST_FAULT, hne]]
    rw [ctrl_set_led_state_flt_on]
    exact ⟨rfl, rfl, htf, rfl⟩
  · intro k j hk hj
    rw [hiter (10*k + j) (by omega),
        ctrl_burst_on s f (10*k + j) (by omega) (by omega)]
    exact ⟨rfl, rfl⟩
  · intro k j hk hj4 hj10
    rw [hiter (10*k + j) (by omega),
        ctrl_burst_off s f (10*k + j) (by omega) (by omega)]
    exact ⟨rfl, rfl⟩
  · intro m hm
    rw [hiter (10*f + m) (by omega),
        ctrl_burst_idle s f (10*f + m) (by omega) (by omega)]
  · rw [hiter (10*f + 40) (by omega),
        ctrl_burst_reload s f (10*f + 40) (by omega)]
    exact ⟨rfl, rfl, hft, rfl⟩

/-- Witness for `ctrl_fault_blink_count` with fault code 2: tick 15 of the
burst is in the second phase's BlinkOff interval, and tick 60 (after the
2-phase burst and the idle pause) restarts with the count reloaded. -/
theorem ctrl_fault_blink_count_witness :
    (ctrl_led_iter (10*1 + 5) ⟨CTRL_ST_FAULT, 1, CTRL_LED_ST_FLT_ON, 4, 2, 2, CTRL_LED_RED⟩).ctrl_led_state
      = CTRL_LED_ST_FLT_OFF ∧
    (ctrl_led_iter (10*2 + 40) ⟨CTRL_ST_FAULT, 1, CTRL_LED_ST_FLT_ON, 4, 2, 2, CTRL_LED_RED⟩).ctrl_fault_led_count
      = ((2 : Nat) : Int) :=
  ⟨((ctrl_fault_blink_count 2 (by decide)
      ⟨CTRL_ST_FAULT, 1, CTRL_LED_ST_FLT_ON, 4, 2, 2, CTRL_LED_RED⟩
      rfl rfl (by decide) (by decide) rfl).2.2.1 1 5 (by decide) (by decide)
      (by decide)).1,
   (ctrl_fault_blink_count 2 (by decide)
      ⟨CTRL_ST_FAULT, 1, CTRL_LED_ST_FLT_ON, 4, 2, 2, CTRL_LED_RED⟩
      rfl rfl (by decide) (by decide) rfl).2.2.2.2.2.2.1⟩

end TCam